import Mathlib

/-
Verification of the Intel VT-x hypervisor core (shittyvisor-rs).

Shallow embedding conventions:
* Machine integers (u8/u16/u32/u64) are Nat; casts in the source become
  explicit mod (or mask) operations at the places the source casts.
* Hardware reads (rdmsr, control registers, descriptor tables, VMREAD)
  come from explicit environment records passed to each function.
* Fallible operations return Except/Option; a Rust panic (unwrap, slice
  out of bounds, macro panic) is modelled as the error/none branch.
* Side effects (wrmsr, VMWRITE, CR writes, VMX instructions) are returned
  as explicit values or recorded in an action trace.
-/

set_option maxRecDepth 10000
set_option maxHeartbeats 2000000

namespace ShittyVisor

/-! ## MSR addresses (constants of the x86 crate used by the source) -/

def IA32_FEATURE_CONTROL : Nat := 0x3a
def IA32_VMX_BASIC : Nat := 0x480
def IA32_VMX_PINBASED_CTLS : Nat := 0x481
def IA32_VMX_PROCBASED_CTLS : Nat := 0x482
def IA32_VMX_EXIT_CTLS : Nat := 0x483
def IA32_VMX_ENTRY_CTLS : Nat := 0x484
def IA32_VMX_CR0_FIXED0 : Nat := 0x486
def IA32_VMX_CR0_FIXED1 : Nat := 0x487
def IA32_VMX_CR4_FIXED0 : Nat := 0x488
def IA32_VMX_CR4_FIXED1 : Nat := 0x489
def IA32_VMX_PROCBASED_CTLS2 : Nat := 0x48b
def IA32_VMX_TRUE_PINBASED_CTLS : Nat := 0x48d
def IA32_VMX_TRUE_PROCBASED_CTLS : Nat := 0x48e
def IA32_VMX_TRUE_EXIT_CTLS : Nat := 0x48f
def IA32_VMX_TRUE_ENTRY_CTLS : Nat := 0x490
def IA32_FS_BASE : Nat := 0xc0000100
def IA32_GS_BASE : Nat := 0xc0000101
def IA32_DEBUGCTL : Nat := 0x1d9
def IA32_SYSENTER_CS : Nat := 0x174
def IA32_SYSENTER_ESP : Nat := 0x175
def IA32_SYSENTER_EIP : Nat := 0x176

/-! ## Errors (error.rs is not under src; constructors are those the sources
use, names as in the spec's error taxonomy, section 7) -/

inductive HypervisorError where
  | CPUUnsupported
  | VMXUnsupported
  | VMXBIOSLock
  | AllocationFailed
  | VirtualToPhysicalAddressFailed
  | UnknownVMExitReason
  | UnknownVMInstructionError
deriving DecidableEq, Repr

/-! ## adjust_vmx_controls (vmx.rs lines 647-684) -/

/-- The types of the control field (vmx.rs, enum VmxControl). -/
inductive VmxControl where
  | PinBased
  | ProcessorBased
  | ProcessorBased2
  | VmExit
  | VmEntry
deriving DecidableEq, Repr

/-- Read-only MSR environment: the value rdmsr returns for each MSR address. -/
structure MsrEnv where
  rdmsr : Nat → Nat

/-- An rdmsr result is a 64-bit value. -/
def MsrEnv.read64 (env : MsrEnv) (msr : Nat) : Nat := env.rdmsr msr % 2 ^ 64

/-- The capability MSR selected by adjust_vmx_controls for a control class:
the TRUE variant when IA32_VMX_BASIC bit 55 is set, except ProcessorBased2
which always uses IA32_VMX_PROCBASED_CTLS2 (vmx.rs lines 658-675). -/
def vmx_cap_msr (env : MsrEnv) (control : VmxControl) : Nat :=
  let vmx_basic := env.read64 IA32_VMX_BASIC
  let true_cap_msr_supported : Bool := vmx_basic &&& (1 <<< 55) != 0
  match control, true_cap_msr_supported with
  | .PinBased, true => IA32_VMX_TRUE_PINBASED_CTLS
  | .PinBased, false => IA32_VMX_PINBASED_CTLS
  | .ProcessorBased, true => IA32_VMX_TRUE_PROCBASED_CTLS
  | .ProcessorBased, false => IA32_VMX_PROCBASED_CTLS
  | .VmExit, true => IA32_VMX_TRUE_EXIT_CTLS
  | .VmExit, false => IA32_VMX_EXIT_CTLS
  | .VmEntry, true => IA32_VMX_TRUE_ENTRY_CTLS
  | .VmEntry, false => IA32_VMX_ENTRY_CTLS
  | .ProcessorBased2, _ => IA32_VMX_PROCBASED_CTLS2

/-- Low 32 bits of the selected capability MSR (allowed-0 settings). -/
def vmx_allowed0 (env : MsrEnv) (control : VmxControl) : Nat :=
  env.read64 (vmx_cap_msr env control) % 2 ^ 32

/-- High 32 bits of the selected capability MSR (allowed-1 settings). -/
def vmx_allowed1 (env : MsrEnv) (control : VmxControl) : Nat :=
  env.read64 (vmx_cap_msr env control) >>> 32

/-- Embedding of adjust_vmx_controls (vmx.rs lines 657-684).
The source computes u32::try_from(requested_value).unwrap(), which panics
when the requested value does not fit in 32 bits; that panic is modelled
as none. The u32 casts of the capability word become mod 2 ^ 32 (the high
half is below 2 ^ 32 already because the read is 64-bit). -/
def adjust_vmx_controls (env : MsrEnv) (control : VmxControl)
    (requested_value : Nat) : Option Nat :=
  let capabilities := env.read64 (vmx_cap_msr env control)
  let allowed0 := capabilities % 2 ^ 32
  let allowed1 := capabilities >>> 32
  if requested_value < 2 ^ 32 then
    some ((requested_value ||| allowed0) &&& allowed1)
  else
    none

/-! ## unpack_gdt_entry (vmx.rs lines 549-642) -/

def GDT_ENTRY_ACCESS_PRESENT : Nat := 1 <<< 7

def VMX_INFO_SEGMENT_UNUSABLE : Nat := 1 <<< 16

/-- One 8-byte GDT entry (vmx.rs, struct GdtEntry). Fields are byte/word
sized: limit_low and base_low are u16, the rest u8. -/
structure GdtEntry where
  limit_low : Nat
  base_low : Nat
  base_middle : Nat
  access : Nat
  granularity : Nat
  base_high : Nat
deriving DecidableEq, Repr

/-- Well-formedness: each field fits its machine width. -/
def GdtEntry.WF (e : GdtEntry) : Prop :=
  e.limit_low < 2 ^ 16 ∧ e.base_low < 2 ^ 16 ∧ e.base_middle < 2 ^ 8 ∧
  e.access < 2 ^ 8 ∧ e.granularity < 2 ^ 8 ∧ e.base_high < 2 ^ 8

instance (e : GdtEntry) : Decidable e.WF := by
  unfold GdtEntry.WF; infer_instance

/-- Unpacked (base, limit, access rights, selector) in VMX packing
(vmx.rs, struct UnpackedGdtEntry; Default is all zeroes). -/
structure UnpackedGdtEntry where
  base : Nat := 0
  limit : Nat := 0
  access_rights : Nat := 0
  selector : Nat := 0
deriving DecidableEq, Repr

/-- Embedding of unpack_gdt_entry (vmx.rs lines 556-584). The index is
selector / 8 (size_of GdtEntry). Index 0 returns the default entry marked
unusable. A non-zero index out of bounds panics in the source (unguarded
slice index); modelled as none. -/
def unpack_gdt_entry (gdt : List GdtEntry) (selector : Nat) :
    Option UnpackedGdtEntry :=
  let index := selector / 8
  if index = 0 then
    some { access_rights := 0 ||| VMX_INFO_SEGMENT_UNUSABLE }
  else
    match gdt[index]? with
    | none => none
    | some e =>
      let limit := e.limit_low ||| ((e.granularity &&& 0x0f) <<< 16)
      let base := (e.base_high <<< 24) ||| (e.base_middle <<< 16) ||| e.base_low
      let ar0 := e.access
      let ar1 := ar0 ||| ((e.granularity &&& 0xf0) <<< 8)
      let ar2 := ar1 &&& 0xf0ff
      let ar3 :=
        if e.access &&& GDT_ENTRY_ACCESS_PRESENT = 0 then
          ar2 ||| VMX_INFO_SEGMENT_UNUSABLE
        else
          ar2
      some { base := base, limit := limit, access_rights := ar3,
             selector := selector }

/-! ## set_lock_bit (vmx.rs lines 434-452) -/

/-- Embedding of set_lock_bit. The input is the value rdmsr returns for
IA32_FEATURE_CONTROL. Result: ok (some w) means the MSR was written with w,
ok none means success with no write, error is the VMXBIOSLock failure. -/
def set_lock_bit (ia32_feature_control : Nat) :
    Except HypervisorError (Option Nat) :=
  let VMX_LOCK_BIT : Nat := 1 <<< 0
  let VMXON_OUTSIDE_SMX : Nat := 1 <<< 2
  if ia32_feature_control &&& VMX_LOCK_BIT = 0 then
    .ok (some (VMXON_OUTSIDE_SMX ||| VMX_LOCK_BIT ||| ia32_feature_control))
  else if ia32_feature_control &&& VMXON_OUTSIDE_SMX = 0 then
    .error .VMXBIOSLock
  else
    .ok none

/-! ## CR0/CR4 fixup (vmx.rs lines 464-487) -/

/-- Bits of the x86 crate Cr0 bitflags type, the mask that
Cr0::from_bits_truncate keeps: PE, MP, EM, TS, ET, NE, WP, AM, NW, CD, PG. -/
def CR0_FLAGS_MASK : Nat := 0xE005003F

/-- Bits of the x86 crate Cr4 bitflags type, the mask that
Cr4::from_bits_truncate keeps (bits 0-14, 16-18, 20-22). -/
def CR4_FLAGS_MASK : Nat := 0x777FFF

/-- Embedding of set_cr0_bits (vmx.rs lines 464-474). cr0 is the raw CR0
value; controlregs::cr0() truncates it to the known flags, and the fixed
MSR values pass through Cr0::from_bits_truncate before the or/and. The
result is the value written back to CR0. -/
def set_cr0_bits (cr0 fixed0 fixed1 : Nat) : Nat :=
  ((cr0 &&& CR0_FLAGS_MASK) ||| (fixed0 &&& CR0_FLAGS_MASK)) &&&
    (fixed1 &&& CR0_FLAGS_MASK)

/-- Embedding of set_cr4_bits (vmx.rs lines 477-487), same shape as
set_cr0_bits with the Cr4 flag mask. -/
def set_cr4_bits (cr4 fixed0 fixed1 : Nat) : Nat :=
  ((cr4 &&& CR4_FLAGS_MASK) ||| (fixed0 &&& CR4_FLAGS_MASK)) &&&
    (fixed1 &&& CR4_FLAGS_MASK)

/-! ## Identity page tables (paging.rs) -/

def BASE_PAGE_SHIFT : Nat := 12

def LARGE_PAGE_SIZE : Nat := 0x200000

/-- Page-table entries are u64 bitfields (paging.rs lines 123-145):
present is bit 0, writable bit 1, large bit 7, pfn bits 12..52. -/
def Entry.set_present (e : Nat) : Nat := e ||| 1

def Entry.set_writable (e : Nat) : Nat := e ||| 2

def Entry.set_large (e : Nat) : Nat := e ||| (1 <<< 7)

def PFN_FIELD_MASK : Nat := ((1 <<< 40) - 1) <<< 12

/-- Bitfield assignment of the 40-bit pfn field: clears bits 12..52 and
stores the value truncated to 40 bits there (bitfield crate semantics). -/
def Entry.set_pfn (e v : Nat) : Nat :=
  (e &&& (0xFFFFFFFFFFFFFFFF ^^^ PFN_FIELD_MASK)) |||
    ((v &&& ((1 <<< 40) - 1)) <<< 12)

def Entry.present (e : Nat) : Bool := e.testBit 0

def Entry.writable (e : Nat) : Bool := e.testBit 1

def Entry.large (e : Nat) : Bool := e.testBit 7

def Entry.pfn (e : Nat) : Nat := (e >>> 12) &&& ((1 <<< 40) - 1)

/-- The four paging levels (paging.rs, struct PageTables); each table has
512 u64 entries. -/
structure PageTables where
  pml4 : Fin 512 → Nat
  pdpt : Fin 512 → Nat
  pd : Fin 512 → Fin 512 → Nat
  pt : Fin 512 → Nat

/-- Embedding of PageTables::build_identity (paging.rs lines 39-73).
pdpt_pa and pd_pa are the physical addresses PhysicalAddress::pa_from_va
yields for the pdpt and for each pd table (the translation service is
external to the core). The source threads a physical-address accumulator
pa through the nested loops, adding LARGE_PAGE_SIZE once per PD entry in
row-major order, so at PD[i][j] it holds pa = (i * 512 + j) *
LARGE_PAGE_SIZE. The pt level is left untouched, as in the source. -/
def build_identity (t : PageTables) (pdpt_pa : Nat) (pd_pa : Fin 512 → Nat) :
    PageTables :=
  { pml4 := fun k =>
      if k = 0 then
        Entry.set_pfn (Entry.set_writable (Entry.set_present (t.pml4 0)))
          (pdpt_pa >>> BASE_PAGE_SHIFT)
      else t.pml4 k
    pdpt := fun i =>
      Entry.set_pfn (Entry.set_writable (Entry.set_present (t.pdpt i)))
        (pd_pa i >>> BASE_PAGE_SHIFT)
    pd := fun i j =>
      Entry.set_pfn
        (Entry.set_large (Entry.set_writable (Entry.set_present (t.pd i j))))
        (((i.val * 512 + j.val) * LARGE_PAGE_SIZE) >>> BASE_PAGE_SHIFT)
    pt := t.pt }

/-! ## Guest registers and VMCS fields -/

/-- The shadow register block the exit trampoline exchanges with the
handlers (registers.rs / capture.rs are not under src; fields per the
spec, section 3: the 16 general-purpose registers plus RIP/RSP/RFLAGS). -/
structure GuestRegisters where
  rax : Nat := 0
  rbx : Nat := 0
  rcx : Nat := 0
  rdx : Nat := 0
  rdi : Nat := 0
  rsi : Nat := 0
  rbp : Nat := 0
  r8 : Nat := 0
  r9 : Nat := 0
  r10 : Nat := 0
  r11 : Nat := 0
  r12 : Nat := 0
  r13 : Nat := 0
  r14 : Nat := 0
  r15 : Nat := 0
  rip : Nat := 0
  rsp : Nat := 0
  rflags : Nat := 0
deriving DecidableEq, Repr

/-- VMCS field encodings (x86 crate constants). -/
def GUEST_RIP : Nat := 0x681E
def GUEST_RSP : Nat := 0x681C
def GUEST_RFLAGS : Nat := 0x6820
def EXIT_REASON : Nat := 0x4402
def VM_INSTRUCTION_ERROR : Nat := 0x4400
def VMEXIT_INSTRUCTION_LEN : Nat := 0x440C
def VMEXIT_INTERRUPTION_INFO : Nat := 0x4404
def VMEXIT_INTERRUPTION_ERR_CODE : Nat := 0x4406
def EXIT_QUALIFICATION : Nat := 0x6400
def VMENTRY_INTR_INFO : Nat := 0x4016
def VMENTRY_EXCEPTION_ERR_CODE : Nat := 0x4018

/-! ## Breakpoint hook dispatch (vmexit/exception.rs lines 56-94) -/

/-- Hook variants (ept/hooks.rs is not under src). Modelled from the spec:
a Hook owns either a Function variant whose handler_address() is jumped
to, or other variants ignored by the core (spec, section 3). -/
inductive HookType where
  | Function (handler_address : Nat)
  | Other
deriving DecidableEq, Repr

structure Hook where
  hook_type : HookType
deriving DecidableEq, Repr

/-- Modelled from the spec: EventInjection (events.rs is not under src).
Event injection writes VMENTRY_INTR_INFO with valid = 1 (bit 31), the
interruption type in bits 8..11 (type 6, software exception, for the
re-injected #BP), and the vector in bits 0..8 (spec, section 4.6.2). -/
def vmentry_inject_bp : List (Nat × Nat) :=
  [(VMENTRY_INTR_INFO, 3 ||| (6 <<< 8) ||| (1 <<< 31))]

/-- Modelled from the spec: #PF re-injection writes the captured error
code and VMENTRY_INTR_INFO with valid = 1, type = 3 (hardware exception),
vector = 14, error-code-valid (bit 11) set (spec, section 4.6.2). -/
def vmentry_inject_pf (error_code : Nat) : List (Nat × Nat) :=
  [(VMENTRY_EXCEPTION_ERR_CODE, error_code),
   (VMENTRY_INTR_INFO, 14 ||| (3 <<< 8) ||| (1 <<< 11) ||| (1 <<< 31))]

/-- Modelled from the spec: #GP re-injection, as for #PF with vector 13. -/
def vmentry_inject_gp (error_code : Nat) : List (Nat × Nat) :=
  [(VMENTRY_EXCEPTION_ERR_CODE, error_code),
   (VMENTRY_INTR_INFO, 13 ||| (3 <<< 8) ||| (1 <<< 11) ||| (1 <<< 31))]

/-- Embedding of handle_breakpoint_exception (vmexit/exception.rs lines
56-94). find_hook_by_address is the hook manager operation the core
consumes. Returns the updated shadow registers and the list of VMCS
writes performed. The source matches Some(Some(handler)) on the mapped
lookup: any hook of the Function variant takes the rewrite path,
regardless of its handler address value. -/
def handle_breakpoint_exception (find_hook_by_address : Nat → Option Hook)
    (regs : GuestRegisters) : GuestRegisters × List (Nat × Nat) :=
  match (find_hook_by_address regs.rip).map (fun hook =>
      match hook.hook_type with
      | .Function handler_address => some handler_address
      | _ => none) with
  | some (some handler) =>
    ({ regs with rip := handler }, [(GUEST_RIP, handler)])
  | _ =>
    (regs, vmentry_inject_bp)

/-! ## Exception exit handler (vmexit/exception.rs lines 19-54) -/

/-- Panic sites of the embedded handlers (the source uses panic! with a
formatted message; only the site identity is modelled). -/
inductive PanicKind where
  | unhandledException
  | invalidExceptionVector
  | invalidInterruptionInfo
  | unhandledVmexit
  | vmFailed
  | vmxInstructionFailed
  | unpackOutOfBounds
  | adjustOverflow
  | hostGdtLimitOverflow
deriving DecidableEq, Repr

/-- Exit decision of the exit handlers in the version of the dispatcher
that exception.rs belongs to (its mod.rs is not under src; variants per
the spec, section 4.6). -/
inductive ExitType where
  | ExitHypervisor
  | IncrementRIP
  | Continue
deriving DecidableEq, Repr

/-- Modelled from the spec: VmExitInterruptionInformation (vmerror.rs is
not under src). The VM-exit interruption information field holds the
vector in bits 0..8, the interruption type in bits 8..11,
error-code-valid in bit 11, NMI-unblocking in bit 12, valid in bit 31;
bits 13..31 are reserved. Structural validation (spec, section 4.6.1)
fails when a reserved bit is set. -/
structure VmExitInterruptionInformation where
  vector : Nat
  interruption_type : Nat
  error_code_valid : Bool
  nmi_unblocking : Bool
  valid : Bool
deriving DecidableEq, Repr

def VmExitInterruptionInformation.from_u32 (v : Nat) :
    Option VmExitInterruptionInformation :=
  if (v >>> 13) &&& ((1 <<< 18) - 1) = 0 then
    some { vector := v &&& 0xFF
           interruption_type := (v >>> 8) &&& 0x7
           error_code_valid := v.testBit 11
           nmi_unblocking := v.testBit 12
           valid := v.testBit 31 }
  else
    none

/-- Modelled from the spec: ExceptionInterrupt (vmerror.rs is not under
src): the architectural exception vectors 0..20 (15 is reserved and not a
member); any other value fails the vector validation. -/
inductive ExceptionInterrupt where
  | DivideError
  | Debug
  | NonMaskableInterrupt
  | Breakpoint
  | Overflow
  | BoundRangeExceeded
  | InvalidOpcode
  | DeviceNotAvailable
  | DoubleFault
  | CoprocessorSegmentOverrun
  | InvalidTaskStateSegment
  | SegmentNotPresent
  | StackSegmentFault
  | GeneralProtectionFault
  | PageFault
  | X87FloatingPointError
  | AlignmentCheck
  | MachineCheck
  | SimdFloatingPointError
  | VirtualizationException
deriving DecidableEq, Repr

def ExceptionInterrupt.from_u32 (v : Nat) : Option ExceptionInterrupt :=
  match v with
  | 0 => some .DivideError
  | 1 => some .Debug
  | 2 => some .NonMaskableInterrupt
  | 3 => some .Breakpoint
  | 4 => some .Overflow
  | 5 => some .BoundRangeExceeded
  | 6 => some .InvalidOpcode
  | 7 => some .DeviceNotAvailable
  | 8 => some .DoubleFault
  | 9 => some .CoprocessorSegmentOverrun
  | 10 => some .InvalidTaskStateSegment
  | 11 => some .SegmentNotPresent
  | 12 => some .StackSegmentFault
  | 13 => some .GeneralProtectionFault
  | 14 => some .PageFault
  | 16 => some .X87FloatingPointError
  | 17 => some .AlignmentCheck
  | 18 => some .MachineCheck
  | 19 => some .SimdFloatingPointError
  | 20 => some .VirtualizationException
  | _ => none

/-- Embedding of handle_exception (vmexit/exception.rs lines 19-54).
info_value and err_code are the values VMREAD returns for
VMEXIT_INTERRUPTION_INFO and VMEXIT_INTERRUPTION_ERR_CODE (64-bit reads;
the source casts both to u32). On #PF the source also reads
EXIT_QUALIFICATION purely for logging, which has no modelled effect.
panic! sites become errors; otherwise the result is the exit decision,
the updated shadow registers and the VMCS writes performed. -/
def handle_exception (find_hook_by_address : Nat → Option Hook)
    (info_value err_code : Nat) (regs : GuestRegisters) :
    Except PanicKind (ExitType × GuestRegisters × List (Nat × Nat)) :=
  match VmExitInterruptionInformation.from_u32 (info_value % 2 ^ 32) with
  | none => .error .invalidInterruptionInfo
  | some interruption_info =>
    match ExceptionInterrupt.from_u32 interruption_info.vector with
    | none => .error .invalidExceptionVector
    | some exception_interrupt =>
      match exception_interrupt with
      | .PageFault =>
        .ok (.Continue, regs, vmentry_inject_pf (err_code % 2 ^ 32))
      | .GeneralProtectionFault =>
        .ok (.Continue, regs, vmentry_inject_gp (err_code % 2 ^ 32))
      | .Breakpoint =>
        let r := handle_breakpoint_exception find_hook_by_address regs
        .ok (.Continue, r.1, r.2)
      | _ => .error .unhandledException

/-! ## VM-exit dispatcher (vmexit/mod.rs lines 25-158) -/

/-- Return code of vmexit_handler (vmexit/mod.rs, enum VmExitType). -/
inductive VmExitType where
  | ExitHypervisor
  | IncrementRIP
  | Continue
deriving DecidableEq, Repr

def VmExitType.as_u8 : VmExitType → Nat
  | .ExitHypervisor => 0
  | .IncrementRIP => 1
  | .Continue => 2

/-- Modelled from the spec: VmxBasicExitReason (vmerror.rs is not under
src). from_u32 takes the low 16 bits as the basic reason (spec, section
4.6) and recognizes the basic exit reasons of SDM Appendix C Table C-1:
0..64 except the unused codes 35, 38 and 42. The dispatcher only
distinguishes Cpuid (10), Rdmsr (31) and Wrmsr (32); every other
recognized reason reaches its catch-all arm. -/
inductive VmxBasicExitReason where
  | Cpuid
  | Rdmsr
  | Wrmsr
  | OtherRecognized (basic : Nat)
deriving DecidableEq, Repr

def VmxBasicExitReason.from_u32 (v : Nat) : Option VmxBasicExitReason :=
  let basic := v &&& 0xFFFF
  if basic = 10 then some .Cpuid
  else if basic = 31 then some .Rdmsr
  else if basic = 32 then some .Wrmsr
  else if basic ≤ 64 && basic != 35 && basic != 38 && basic != 42 then
    some (.OtherRecognized basic)
  else none

/-- Modelled from the spec: VmInstructionError (vmerror.rs is not under
src). The spec only says an unclassified VM-instruction-error code
surfaces UnknownVmInstructionError; the classified codes are modelled as
0 (no error, the value read after an ordinary VM-exit) through 28 (the
SDM 31.4 error numbers). -/
def VmInstructionError.from_u32 (v : Nat) : Option Nat :=
  if v ≤ 28 then some v else none

/-- Host services the per-reason handlers consume: the host CPUID
instruction (eax, ebx, ecx, edx for a leaf/subleaf) and host rdmsr. -/
structure HostEnv where
  host_cpuid : Nat → Nat → Nat × Nat × Nat × Nat
  host_rdmsr : Nat → Nat

/-- Modelled from the spec: handle_cpuid (vmexit/cpuid.rs is not under
src). Emulates via host CPUID with the guest-supplied leaf/subleaf
(RAX, RCX), writing results back into the shadow GPRs (spec, section
4.6). -/
def handle_cpuid (env : HostEnv) (regs : GuestRegisters) : GuestRegisters :=
  let r := env.host_cpuid (regs.rax % 2 ^ 32) (regs.rcx % 2 ^ 32)
  { regs with rax := r.1 % 2 ^ 32, rbx := r.2.1 % 2 ^ 32,
              rcx := r.2.2.1 % 2 ^ 32, rdx := r.2.2.2 % 2 ^ 32 }

inductive MsrAccessType where
  | Read
  | Write
deriving DecidableEq, Repr

/-- Modelled from the spec: handle_msr_access (vmexit/msr.rs is not under
src). Read: the MSR indexed by ECX is read and placed in EDX:EAX.
Write: the MSR indexed by ECX is written with EDX:EAX (spec, section
4.6); the performed MSR write is returned alongside the registers. -/
def handle_msr_access (env : HostEnv) (regs : GuestRegisters)
    (kind : MsrAccessType) : GuestRegisters × List (Nat × Nat) :=
  match kind with
  | .Read =>
    let v := env.host_rdmsr (regs.rcx % 2 ^ 32) % 2 ^ 64
    ({ regs with rax := v % 2 ^ 32, rdx := v >>> 32 }, [])
  | .Write =>
    let v := ((regs.rdx % 2 ^ 32) <<< 32) ||| (regs.rax % 2 ^ 32)
    (regs, [(regs.rcx % 2 ^ 32, v)])

/-- VMCS write: functional update of the field map. -/
def vmwrite_state (vmcs : Nat → Nat) (field v : Nat) : Nat → Nat :=
  fun g => if g = field then v else vmcs g

/-- State the dispatcher reads and mutates: the shadow registers, the
current VMCS (a map from field encoding to value), and the MSR writes
performed so far. -/
structure DispatchState where
  regs : GuestRegisters
  vmcs : Nat → Nat
  msr_writes : List (Nat × Nat)

/-- Embedding of VmExit::handle_vmexit (vmexit/mod.rs lines 58-99) plus
advance_guest_rip (lines 107-112). VMREAD of a field yields the VMCS map
value as 64 bits. Outcome: error is a panic (the catch-all arm for a
recognized but unhandled reason); ok (some e, s) is the Err(e) return;
ok (none, s) is Ok(()) after the guest RIP has been advanced by
VMEXIT_INSTRUCTION_LEN (u64 wrap-around as in release-mode Rust). -/
def handle_vmexit (env : HostEnv) (s : DispatchState) :
    Except PanicKind (Option HypervisorError × DispatchState) :=
  let exit_reason := (s.vmcs EXIT_REASON % 2 ^ 64) % 2 ^ 32
  match VmxBasicExitReason.from_u32 exit_reason with
  | none => .ok (some .UnknownVMExitReason, s)
  | some basic_exit_reason =>
    let instruction_error := (s.vmcs VM_INSTRUCTION_ERROR % 2 ^ 64) % 2 ^ 32
    match VmInstructionError.from_u32 instruction_error with
    | none => .ok (some .UnknownVMInstructionError, s)
    | some _ =>
      match
        (match basic_exit_reason with
         | .Cpuid => some ({ s with regs := handle_cpuid env s.regs })
         | .Rdmsr =>
           let r := handle_msr_access env s.regs .Read
           some { s with regs := r.1, msr_writes := s.msr_writes ++ r.2 }
         | .Wrmsr =>
           let r := handle_msr_access env s.regs .Write
           some { s with regs := r.1, msr_writes := s.msr_writes ++ r.2 }
         | .OtherRecognized _ => none) with
      | none => .error .unhandledVmexit
      | some s1 =>
        let rip := s1.vmcs GUEST_RIP % 2 ^ 64
        let len := s1.vmcs VMEXIT_INSTRUCTION_LEN % 2 ^ 64
        let s2 := { s1 with
          vmcs := vmwrite_state s1.vmcs GUEST_RIP ((rip + len) % 2 ^ 64) }
        .ok (none, s2)

/-- Embedding of vmexit_handler (vmexit/mod.rs lines 139-158). A null
GuestRegisters pointer is the none case of the first argument. -/
def vmexit_handler (env : HostEnv) (registers : Option GuestRegisters)
    (vmcs : Nat → Nat) :
    Except PanicKind (VmExitType × Option DispatchState) :=
  match registers with
  | none => .ok (.ExitHypervisor, none)
  | some regs =>
    match handle_vmexit env ⟨regs, vmcs, []⟩ with
    | .error k => .error k
    | .ok (some _, s) => .ok (.ExitHypervisor, some s)
    | .ok (none, s) => .ok (.Continue, some s)

/-! ## The per-CPU orchestrator Vmx::run (vmx.rs lines 58-541)

run is modelled as a trace semantics: every hardware side effect (control
register write, wrmsr, VMX instruction, VMWRITE/VMREAD, VMLAUNCH) is
recorded as an action. Reads come from the environment. The probe
functions has_intel_cpu / has_vmx_support (vmx.rs lines 390-409) are
modelled as probe actions so that the trace shows whether run invokes
them. External library internals (the x86 crate descriptor builder, the
assembly launch stub) are opaque environment values. -/

/-- Remaining VMCS field encodings used by run (x86 crate constants). -/
def GUEST_CR0 : Nat := 0x6800
def GUEST_CR3 : Nat := 0x6802
def GUEST_CR4 : Nat := 0x6804
def GUEST_DR7 : Nat := 0x681A
def GUEST_ES_SELECTOR : Nat := 0x800
def GUEST_CS_SELECTOR : Nat := 0x802
def GUEST_SS_SELECTOR : Nat := 0x804
def GUEST_DS_SELECTOR : Nat := 0x806
def GUEST_FS_SELECTOR : Nat := 0x808
def GUEST_GS_SELECTOR : Nat := 0x80A
def GUEST_LDTR_SELECTOR : Nat := 0x80C
def GUEST_TR_SELECTOR : Nat := 0x80E
def GUEST_ES_BASE : Nat := 0x6806
def GUEST_CS_BASE : Nat := 0x6808
def GUEST_SS_BASE : Nat := 0x680A
def GUEST_DS_BASE : Nat := 0x680C
def GUEST_FS_BASE : Nat := 0x680E
def GUEST_GS_BASE : Nat := 0x6810
def GUEST_LDTR_BASE : Nat := 0x6812
def GUEST_TR_BASE : Nat := 0x6814
def GUEST_GDTR_BASE : Nat := 0x6816
def GUEST_IDTR_BASE : Nat := 0x6818
def GUEST_ES_LIMIT : Nat := 0x4800
def GUEST_CS_LIMIT : Nat := 0x4802
def GUEST_SS_LIMIT : Nat := 0x4804
def GUEST_DS_LIMIT : Nat := 0x4806
def GUEST_FS_LIMIT : Nat := 0x4808
def GUEST_GS_LIMIT : Nat := 0x480A
def GUEST_LDTR_LIMIT : Nat := 0x480C
def GUEST_TR_LIMIT : Nat := 0x480E
def GUEST_GDTR_LIMIT : Nat := 0x4810
def GUEST_IDTR_LIMIT : Nat := 0x4812
def GUEST_ES_ACCESS_RIGHTS : Nat := 0x4814
def GUEST_CS_ACCESS_RIGHTS : Nat := 0x4816
def GUEST_SS_ACCESS_RIGHTS : Nat := 0x4818
def GUEST_DS_ACCESS_RIGHTS : Nat := 0x481A
def GUEST_FS_ACCESS_RIGHTS : Nat := 0x481C
def GUEST_GS_ACCESS_RIGHTS : Nat := 0x481E
def GUEST_LDTR_ACCESS_RIGHTS : Nat := 0x4820
def GUEST_TR_ACCESS_RIGHTS : Nat := 0x4822
def GUEST_IA32_DEBUGCTL_FULL : Nat := 0x2802
def GUEST_IA32_SYSENTER_CS : Nat := 0x482A
def GUEST_IA32_SYSENTER_ESP : Nat := 0x6824
def GUEST_IA32_SYSENTER_EIP : Nat := 0x6826
def GUEST_LINK_PTR_FULL : Nat := 0x2800
def HOST_CR0 : Nat := 0x6C00
def HOST_CR3 : Nat := 0x6C02
def HOST_CR4 : Nat := 0x6C04
def HOST_ES_SELECTOR : Nat := 0xC00
def HOST_CS_SELECTOR : Nat := 0xC02
def HOST_SS_SELECTOR : Nat := 0xC04
def HOST_DS_SELECTOR : Nat := 0xC06
def HOST_FS_SELECTOR : Nat := 0xC08
def HOST_GS_SELECTOR : Nat := 0xC0A
def HOST_TR_SELECTOR : Nat := 0xC0C
def HOST_FS_BASE : Nat := 0x6C06
def HOST_GS_BASE : Nat := 0x6C08
def HOST_TR_BASE : Nat := 0x6C0A
def HOST_GDTR_BASE : Nat := 0x6C0C
def HOST_IDTR_BASE : Nat := 0x6C0E
def HOST_IA32_SYSENTER_CS : Nat := 0x4C00
def HOST_IA32_SYSENTER_ESP : Nat := 0x6C10
def HOST_IA32_SYSENTER_EIP : Nat := 0x6C12
def PINBASED_EXEC_CONTROLS : Nat := 0x4000
def PRIMARY_PROCBASED_EXEC_CONTROLS : Nat := 0x4002
def SECONDARY_PROCBASED_EXEC_CONTROLS : Nat := 0x401E
def VMEXIT_CONTROLS : Nat := 0x400C
def VMENTRY_CONTROLS : Nat := 0x4012
def CR0_READ_SHADOW : Nat := 0x6004
def CR4_READ_SHADOW : Nat := 0x6006

/-- Hardware side effects recorded by the run model. -/
inductive VmxAction where
  | writeCr0 (v : Nat)
  | writeCr4 (v : Nat)
  | readmsr (msr : Nat)
  | writemsr (msr v : Nat)
  | vmxon (pa : Nat)
  | vmclear (pa : Nat)
  | vmptrld (pa : Nat)
  | vmwriteA (field v : Nat)
  | vmreadA (field : Nat)
  | launch
  | probeVendor
  | probeVmx
deriving DecidableEq, Repr

/-- Captured bootstrap context (utils/context.rs is not under src; fields
are the ones vmx.rs reads, per the spec, section 3: GPRs, RIP/RSP/RFLAGS,
DR7, segment selectors). Selector fields are u16, the rest u64. -/
structure Context where
  rax : Nat := 0
  rbx : Nat := 0
  rcx : Nat := 0
  rdx : Nat := 0
  rdi : Nat := 0
  rsi : Nat := 0
  rbp : Nat := 0
  r8 : Nat := 0
  r9 : Nat := 0
  r10 : Nat := 0
  r11 : Nat := 0
  r12 : Nat := 0
  r13 : Nat := 0
  r14 : Nat := 0
  r15 : Nat := 0
  rip : Nat := 0
  rsp : Nat := 0
  e_flags : Nat := 0
  dr7 : Nat := 0
  seg_cs : Nat := 0
  seg_ss : Nat := 0
  seg_ds : Nat := 0
  seg_es : Nat := 0
  seg_fs : Nat := 0
  seg_gs : Nat := 0
deriving DecidableEq, Repr

/-- Environment run executes in: hardware reads and external services. -/
structure RunEnv where
  /-- True when the CPUID vendor string is GenuineIntel. -/
  vendor_is_intel : Bool
  /-- CPUID.1:ECX.VMX. -/
  has_vmx : Bool
  rdmsr : Nat → Nat
  cr0 : Nat
  cr3 : Nat
  cr4 : Nat
  context : Context
  /-- The current GDT as get_current_gdt sees it. -/
  gdt : List GdtEntry
  /-- The current GDT as the u64 slice HostGdt clones. -/
  gdt_u64 : List Nat
  idtr_base : Nat
  idtr_limit : Nat
  gdtr_base : Nat
  gdtr_limit : Nat
  /-- dtables::ldtr().bits() (u16). -/
  ldtr : Nat
  /-- task::tr().bits() (u16). -/
  tr : Nat
  cs : Nat
  ss : Nat
  ds : Nat
  es : Nat
  fs : Nat
  gs : Nat
  /-- MmGetPhysicalAddress. -/
  phys : Nat → Nat
  vmxon_va : Nat
  vmcs_va : Nat
  /-- Success of the VMXON / VMCLEAR / VMPTRLD library calls (their
  unwrap panics on failure). -/
  vmxon_ok : Bool
  vmclear_ok : Bool
  vmptrld_ok : Bool
  /-- Descriptor the x86 crate builder produces for the appended TSS. -/
  tss_descriptor : Nat
  /-- Address of the host TSS. -/
  tss_base : Nat
  /-- Address of the cloned host GDT. -/
  host_gdt_base : Nat
  /-- RFLAGS value launch_vm returns at the first VM-exit. -/
  launch_flags : Nat
  /-- VMREAD results after the VM-exit. -/
  vmread_val : Nat → Nat

/-- The state run mutates: action trace, live CR0/CR4, the shadow
register block, and the launched flag. -/
structure RunState where
  trace : List VmxAction
  cr0 : Nat
  cr4 : Nat
  registers : GuestRegisters
  launched : Bool

/-- Ways run can stop: ordinary return, an error return, or a panic. -/
inductive RunStatus where
  | ok
  | err (e : HypervisorError)
  | panicked (k : PanicKind)
deriving DecidableEq, Repr

structure RunFail where
  state : RunState
  kind : RunStatus

structure RunResult where
  status : RunStatus
  state : RunState

def emit (s : RunState) (a : VmxAction) : RunState :=
  { s with trace := s.trace ++ [a] }

def emits (s : RunState) (l : List VmxAction) : RunState :=
  { s with trace := s.trace ++ l }

/-- Reading a control register truncates to the known flags
(controlregs::cr0 / cr4 use from_bits_truncate). -/
def RunState.read_cr0 (s : RunState) : Nat := s.cr0 &&& CR0_FLAGS_MASK

def RunState.read_cr4 (s : RunState) : Nat := s.cr4 &&& CR4_FLAGS_MASK

/-- Embedding of Vmx::has_intel_cpu (vmx.rs lines 390-398). -/
def has_intel_cpu (env : RunEnv) (s : RunState) : Except RunFail RunState :=
  let s1 := emit s .probeVendor
  if env.vendor_is_intel then .ok s1
  else .error ⟨s1, .err .CPUUnsupported⟩

/-- Embedding of Vmx::has_vmx_support (vmx.rs lines 401-409). -/
def has_vmx_support (env : RunEnv) (s : RunState) : Except RunFail RunState :=
  let s1 := emit s .probeVmx
  if env.has_vmx then .ok s1
  else .error ⟨s1, .err .VMXUnsupported⟩

/-- Embedding of Vmx::set_lock_bit as run performs it (vmx.rs lines
434-452), wrapping the pure set_lock_bit above. -/
def set_lock_bit_phase (env : RunEnv) (s : RunState) :
    Except RunFail RunState :=
  let v := env.rdmsr IA32_FEATURE_CONTROL % 2 ^ 64
  let s1 := emit s (.readmsr IA32_FEATURE_CONTROL)
  match set_lock_bit v with
  | .ok (some w) => .ok (emit s1 (.writemsr IA32_FEATURE_CONTROL w))
  | .ok none => .ok s1
  | .error e => .error ⟨s1, .err e⟩

/-- Embedding of Vmx::set_cr0_bits as run performs it (vmx.rs lines
464-474), wrapping the pure set_cr0_bits above. -/
def set_cr0_bits_phase (env : RunEnv) (s : RunState) : RunState :=
  let f0 := env.rdmsr IA32_VMX_CR0_FIXED0 % 2 ^ 64
  let f1 := env.rdmsr IA32_VMX_CR0_FIXED1 % 2 ^ 64
  let v := set_cr0_bits s.cr0 f0 f1
  { emits s [.readmsr IA32_VMX_CR0_FIXED0, .readmsr IA32_VMX_CR0_FIXED1,
             .writeCr0 v] with cr0 := v }

/-- Embedding of Vmx::set_cr4_bits as run performs it (vmx.rs lines
477-487). -/
def set_cr4_bits_phase (env : RunEnv) (s : RunState) : RunState :=
  let f0 := env.rdmsr IA32_VMX_CR4_FIXED0 % 2 ^ 64
  let f1 := env.rdmsr IA32_VMX_CR4_FIXED1 % 2 ^ 64
  let v := set_cr4_bits s.cr4 f0 f1
  { emits s [.readmsr IA32_VMX_CR4_FIXED0, .readmsr IA32_VMX_CR4_FIXED1,
             .writeCr4 v] with cr4 := v }

/-- Embedding of Vmx::init_vmxon_region (vmx.rs lines 132-153). The
revision-id store into the region is a plain memory write (not recorded);
reading it performs rdmsr of IA32_VMX_BASIC. VMXON failure is an unwrap
panic. -/
def init_vmxon_region (env : RunEnv) (s : RunState) :
    Except RunFail RunState :=
  let pa := env.phys env.vmxon_va
  if pa = 0 then .error ⟨s, .err .VirtualToPhysicalAddressFailed⟩
  else
    let s1 := emit s (.readmsr IA32_VMX_BASIC)
    let s2 := emit s1 (.vmxon pa)
    if env.vmxon_ok then .ok s2
    else .error ⟨s2, .panicked .vmxInstructionFailed⟩

/-- Embedding of Vmx::enable_vmx_operation (vmx.rs lines 412-431):
sets CR4.VMXE (bit 13), sets the feature-control lock, fixes CR0/CR4,
then performs VMXON. -/
def enable_vmx_operation (env : RunEnv) (s : RunState) :
    Except RunFail RunState := do
  let cr4v := s.read_cr4 ||| (1 <<< 13)
  let s1 := { emit s (.writeCr4 cr4v) with cr4 := cr4v }
  let s2 ← set_lock_bit_phase env s1
  let s3 := set_cr0_bits_phase env s2
  let s4 := set_cr4_bits_phase env s3
  init_vmxon_region env s4

/-- Embedding of Vmx::init_vmcs_region (vmx.rs lines 158-186). -/
def init_vmcs_region (env : RunEnv) (s : RunState) :
    Except RunFail RunState :=
  let pa := env.phys env.vmcs_va
  if pa = 0 then .error ⟨s, .err .VirtualToPhysicalAddressFailed⟩
  else
    let s1 := emit s (.readmsr IA32_VMX_BASIC)
    let s2 := emit s1 (.vmclear pa)
    if env.vmclear_ok then
      let s3 := emit s2 (.vmptrld pa)
      if env.vmptrld_ok then .ok s3
      else .error ⟨s3, .panicked .vmxInstructionFailed⟩
    else .error ⟨s2, .panicked .vmxInstructionFailed⟩

/-- The eight guest segment unpacks init_guest_register_state performs
(CS, SS, DS, ES, FS, GS, LDTR, TR); none when any of them panics on an
out-of-range selector. -/
def unpack8 (gdt : List GdtEntry) (cs ss ds es fs gs ldtr tr : Nat) :
    Option (UnpackedGdtEntry × UnpackedGdtEntry × UnpackedGdtEntry ×
      UnpackedGdtEntry × UnpackedGdtEntry × UnpackedGdtEntry ×
      UnpackedGdtEntry × UnpackedGdtEntry) := do
  let ucs ← unpack_gdt_entry gdt cs
  let uss ← unpack_gdt_entry gdt ss
  let uds ← unpack_gdt_entry gdt ds
  let ues ← unpack_gdt_entry gdt es
  let ufs ← unpack_gdt_entry gdt fs
  let ugs ← unpack_gdt_entry gdt gs
  let uldtr ← unpack_gdt_entry gdt ldtr
  let utr ← unpack_gdt_entry gdt tr
  return (ucs, uss, uds, ues, ufs, ugs, uldtr, utr)

/-- Embedding of Vmx::init_guest_register_state (vmx.rs lines 205-304).
The writes are recorded in source order. The source unpacks the GDT entry
afresh for every base/limit/access-rights write; an out-of-range selector
panics at the first such unpack, modelled as a phase-level panic (the
unpacked values are identical across the repeated calls). The final GPR
copies from the captured context go to the shadow register block. -/
def guest_control_writes (env : RunEnv) (s : RunState) : List VmxAction :=
  [VmxAction.vmwriteA GUEST_CR0 s.read_cr0,
   VmxAction.vmwriteA GUEST_CR3 env.cr3,
   VmxAction.vmwriteA GUEST_CR4 s.read_cr4,
   VmxAction.vmwriteA GUEST_DR7 env.context.dr7,
   VmxAction.vmwriteA GUEST_RSP env.context.rsp,
   VmxAction.vmwriteA GUEST_RIP env.context.rip,
   VmxAction.vmwriteA GUEST_RFLAGS env.context.e_flags]

def guest_selector_writes (cs ss ds es fs gs ldtr tr : Nat) : List VmxAction :=
  [VmxAction.vmwriteA GUEST_CS_SELECTOR cs,
   VmxAction.vmwriteA GUEST_SS_SELECTOR ss,
   VmxAction.vmwriteA GUEST_DS_SELECTOR ds,
   VmxAction.vmwriteA GUEST_ES_SELECTOR es,
   VmxAction.vmwriteA GUEST_FS_SELECTOR fs,
   VmxAction.vmwriteA GUEST_GS_SELECTOR gs,
   VmxAction.vmwriteA GUEST_LDTR_SELECTOR ldtr,
   VmxAction.vmwriteA GUEST_TR_SELECTOR tr]

def guest_base_writes (env : RunEnv)
    (ucs uss uds ues uldtr utr : UnpackedGdtEntry) : List VmxAction :=
  [VmxAction.vmwriteA GUEST_CS_BASE ucs.base,
   VmxAction.vmwriteA GUEST_SS_BASE uss.base,
   VmxAction.vmwriteA GUEST_DS_BASE uds.base,
   VmxAction.vmwriteA GUEST_ES_BASE ues.base,
   VmxAction.readmsr IA32_FS_BASE,
   VmxAction.vmwriteA GUEST_FS_BASE (env.rdmsr IA32_FS_BASE % 2 ^ 64),
   VmxAction.readmsr IA32_GS_BASE,
   VmxAction.vmwriteA GUEST_GS_BASE (env.rdmsr IA32_GS_BASE % 2 ^ 64),
   VmxAction.vmwriteA GUEST_LDTR_BASE uldtr.base,
   VmxAction.vmwriteA GUEST_TR_BASE utr.base]

def guest_limit_writes (ucs uss uds ues ufs ugs uldtr utr : UnpackedGdtEntry) :
    List VmxAction :=
  [VmxAction.vmwriteA GUEST_CS_LIMIT ucs.limit,
   VmxAction.vmwriteA GUEST_SS_LIMIT uss.limit,
   VmxAction.vmwriteA GUEST_DS_LIMIT uds.limit,
   VmxAction.vmwriteA GUEST_ES_LIMIT ues.limit,
   VmxAction.vmwriteA GUEST_FS_LIMIT ufs.limit,
   VmxAction.vmwriteA GUEST_GS_LIMIT ugs.limit,
   VmxAction.vmwriteA GUEST_LDTR_LIMIT uldtr.limit,
   VmxAction.vmwriteA GUEST_TR_LIMIT utr.limit]

def guest_ar_writes (ucs uss uds ues ufs ugs uldtr utr : UnpackedGdtEntry) :
    List VmxAction :=
  [VmxAction.vmwriteA GUEST_CS_ACCESS_RIGHTS ucs.access_rights,
   VmxAction.vmwriteA GUEST_SS_ACCESS_RIGHTS uss.access_rights,
   VmxAction.vmwriteA GUEST_DS_ACCESS_RIGHTS uds.access_rights,
   VmxAction.vmwriteA GUEST_ES_ACCESS_RIGHTS ues.access_rights,
   VmxAction.vmwriteA GUEST_FS_ACCESS_RIGHTS ufs.access_rights,
   VmxAction.vmwriteA GUEST_GS_ACCESS_RIGHTS ugs.access_rights,
   VmxAction.vmwriteA GUEST_LDTR_ACCESS_RIGHTS uldtr.access_rights,
   VmxAction.vmwriteA GUEST_TR_ACCESS_RIGHTS utr.access_rights]

def guest_table_and_msr_writes (env : RunEnv) : List VmxAction :=
  [VmxAction.vmwriteA GUEST_GDTR_BASE env.gdtr_base,
   VmxAction.vmwriteA GUEST_IDTR_BASE env.idtr_base,
   VmxAction.vmwriteA GUEST_GDTR_LIMIT env.gdtr_limit,
   VmxAction.vmwriteA GUEST_IDTR_LIMIT env.idtr_limit,
   VmxAction.readmsr IA32_DEBUGCTL,
   VmxAction.vmwriteA GUEST_IA32_DEBUGCTL_FULL (env.rdmsr IA32_DEBUGCTL % 2 ^ 64),
   VmxAction.readmsr IA32_SYSENTER_CS,
   VmxAction.vmwriteA GUEST_IA32_SYSENTER_CS (env.rdmsr IA32_SYSENTER_CS % 2 ^ 64),
   VmxAction.readmsr IA32_SYSENTER_ESP,
   VmxAction.vmwriteA GUEST_IA32_SYSENTER_ESP (env.rdmsr IA32_SYSENTER_ESP % 2 ^ 64),
   VmxAction.readmsr IA32_SYSENTER_EIP,
   VmxAction.vmwriteA GUEST_IA32_SYSENTER_EIP (env.rdmsr IA32_SYSENTER_EIP % 2 ^ 64),
   VmxAction.vmwriteA GUEST_LINK_PTR_FULL (2 ^ 64 - 1)]

/-- The GPR copies from the captured context into the shadow block
(vmx.rs lines 287-301). -/
def regs_from_context (regs : GuestRegisters) (ctx : Context) :
    GuestRegisters :=
  { regs with
    rax := ctx.rax, rbx := ctx.rbx, rcx := ctx.rcx, rdx := ctx.rdx,
    rdi := ctx.rdi, rsi := ctx.rsi, rbp := ctx.rbp,
    r8 := ctx.r8, r9 := ctx.r9, r10 := ctx.r10, r11 := ctx.r11,
    r12 := ctx.r12, r13 := ctx.r13, r14 := ctx.r14, r15 := ctx.r15 }

def init_guest_register_state (env : RunEnv) (s : RunState) :
    Except RunFail RunState :=
  let ctx := env.context
  let cs := ctx.seg_cs % 2 ^ 16
  let ss := ctx.seg_ss % 2 ^ 16
  let ds := ctx.seg_ds % 2 ^ 16
  let es := ctx.seg_es % 2 ^ 16
  let fs := ctx.seg_fs % 2 ^ 16
  let gs := ctx.seg_gs % 2 ^ 16
  let ldtr := env.ldtr % 2 ^ 16
  let tr := env.tr % 2 ^ 16
  match unpack8 env.gdt cs ss ds es fs gs ldtr tr with
  | none => .error ⟨s, .panicked .unpackOutOfBounds⟩
  | some (ucs, uss, uds, ues, ufs, ugs, uldtr, utr) =>
    let s1 := emits s
      (guest_control_writes env s ++
       guest_selector_writes cs ss ds es fs gs ldtr tr ++
       guest_base_writes env ucs uss uds ues uldtr utr ++
       guest_limit_writes ucs uss uds ues ufs ugs uldtr utr ++
       guest_ar_writes ucs uss uds ues ufs ugs uldtr utr ++
       guest_table_and_msr_writes env)
    .ok { s1 with registers := regs_from_context s1.registers ctx }

/-- Embedding of Vmx::init_host_register_state (vmx.rs lines 318-356)
including HostGdt::initialize_from_current (lines 713-741): the host GDT
is the current one plus an appended TSS descriptor; TR selects the
appended entry. The u16::try_from of the new GDTR limit panics when the
clone plus TSS entry exceeds a u16 limit. Host selectors are masked with
SELECTOR_MASK = 0xF8. -/
def init_host_register_state (env : RunEnv) (s : RunState) :
    Except RunFail RunState :=
  let gdt_len := env.gdt_u64.length + 1
  if gdt_len * 8 - 1 < 2 ^ 16 then
    let tr_index := (gdt_len % 2 ^ 16) - 1
    let tr_bits := tr_index <<< 3
    let fsbase := env.rdmsr IA32_FS_BASE % 2 ^ 64
    let gsbase := env.rdmsr IA32_GS_BASE % 2 ^ 64
    let sys_cs := env.rdmsr IA32_SYSENTER_CS % 2 ^ 64
    let sys_esp := env.rdmsr IA32_SYSENTER_ESP % 2 ^ 64
    let sys_eip := env.rdmsr IA32_SYSENTER_EIP % 2 ^ 64
    .ok (emits s
      [.vmwriteA HOST_CR0 s.read_cr0,
       .vmwriteA HOST_CR3 env.cr3,
       .vmwriteA HOST_CR4 s.read_cr4,
       .vmwriteA HOST_CS_SELECTOR ((env.cs % 2 ^ 16) &&& 0xF8),
       .vmwriteA HOST_SS_SELECTOR ((env.ss % 2 ^ 16) &&& 0xF8),
       .vmwriteA HOST_DS_SELECTOR ((env.ds % 2 ^ 16) &&& 0xF8),
       .vmwriteA HOST_ES_SELECTOR ((env.es % 2 ^ 16) &&& 0xF8),
       .vmwriteA HOST_FS_SELECTOR ((env.fs % 2 ^ 16) &&& 0xF8),
       .vmwriteA HOST_GS_SELECTOR ((env.gs % 2 ^ 16) &&& 0xF8),
       .vmwriteA HOST_TR_SELECTOR (tr_bits &&& 0xF8),
       .readmsr IA32_FS_BASE,
       .vmwriteA HOST_FS_BASE fsbase,
       .readmsr IA32_GS_BASE,
       .vmwriteA HOST_GS_BASE gsbase,
       .vmwriteA HOST_TR_BASE env.tss_base,
       .vmwriteA HOST_GDTR_BASE env.host_gdt_base,
       .vmwriteA HOST_IDTR_BASE env.idtr_base,
       .readmsr IA32_SYSENTER_CS,
       .vmwriteA HOST_IA32_SYSENTER_CS sys_cs,
       .readmsr IA32_SYSENTER_ESP,
       .vmwriteA HOST_IA32_SYSENTER_ESP sys_esp,
       .readmsr IA32_SYSENTER_EIP,
       .vmwriteA HOST_IA32_SYSENTER_EIP sys_eip])
  else .error ⟨s, .panicked .hostGdtLimitOverflow⟩

/-- One control adjustment and write of init_vmcs_control_values:
adjust_vmx_controls reads IA32_VMX_BASIC and the selected capability MSR,
then the adjusted value is written to the control field. The requested
constants all fit in 32 bits, so the unwrap inside the adjuster cannot
fire there; the panic branch is still modelled. -/
def adjust_phase (env : RunEnv) (control : VmxControl) (field req : Nat)
    (s : RunState) : Except RunFail RunState :=
  let menv : MsrEnv := ⟨env.rdmsr⟩
  let s1 := emits s [.readmsr IA32_VMX_BASIC, .readmsr (vmx_cap_msr menv control)]
  match adjust_vmx_controls menv control req with
  | none => .error ⟨s1, .panicked .adjustOverflow⟩
  | some v => .ok (emit s1 (.vmwriteA field v))

/-- Requested control values (vmx.rs lines 367-371; bits of the x86 crate
control flags). -/
def PRIMARY_CTL : Nat := 1 <<< 31

def SECONDARY_CTL : Nat := (1 <<< 3) ||| (1 <<< 20) ||| (1 <<< 12)

def ENTRY_CTL : Nat := 1 <<< 9

def EXIT_CTL : Nat := 1 <<< 9

def PINBASED_CTL : Nat := 0

/-- Embedding of Vmx::init_vmcs_control_values (vmx.rs lines 366-387). -/
def init_vmcs_control_values (env : RunEnv) (s : RunState) :
    Except RunFail RunState := do
  let s1 ← adjust_phase env .ProcessorBased PRIMARY_PROCBASED_EXEC_CONTROLS
    PRIMARY_CTL s
  let s2 ← adjust_phase env .ProcessorBased2 SECONDARY_PROCBASED_EXEC_CONTROLS
    SECONDARY_CTL s1
  let s3 ← adjust_phase env .VmEntry VMENTRY_CONTROLS ENTRY_CTL s2
  let s4 ← adjust_phase env .VmExit VMEXIT_CONTROLS EXIT_CTL s3
  let s5 ← adjust_phase env .PinBased PINBASED_EXEC_CONTROLS PINBASED_CTL s4
  return emits s5 [.vmwriteA CR0_READ_SHADOW s5.read_cr0,
                   .vmwriteA CR4_READ_SHADOW s5.read_cr4]

/-- Embedding of the launch step of run (vmx.rs lines 105-108): launch_vm
is the external assembly stub (launch.rs is not under src); it returns
the RFLAGS of the failed VMX instruction or of the VM-exit path. The
stub's mutation of the shadow GPR block is external and not modelled.
vm_succeed (lines 529-541) turns ZF into VmFailValid (reading
VM_INSTRUCTION_ERROR for the message) and CF into VmFailInvalid; the
expect on either makes run panic. -/
def launch_phase (env : RunEnv) (s : RunState) : Except RunFail RunState :=
  let s1 := emit s .launch
  let flags := env.launch_flags % 2 ^ 64
  if flags &&& 0x40 ≠ 0 then
    .error ⟨emit s1 (.vmreadA VM_INSTRUCTION_ERROR), .panicked .vmFailed⟩
  else if flags &&& 0x1 ≠ 0 then
    .error ⟨s1, .panicked .vmFailed⟩
  else
    .ok { s1 with launched := true }

/-- The reads run performs after the first VM-exit (vmx.rs lines
112-124): guest RIP/RSP/RFLAGS into the shadow block, then EXIT_REASON
for the log line. -/
def post_exit_reads (env : RunEnv) (s : RunState) : RunState :=
  let rip2 := env.vmread_val GUEST_RIP % 2 ^ 64
  let rsp2 := env.vmread_val GUEST_RSP % 2 ^ 64
  let rfl2 := env.vmread_val GUEST_RFLAGS % 2 ^ 64
  let s1 := emits s [.vmreadA GUEST_RIP, .vmreadA GUEST_RSP,
                     .vmreadA GUEST_RFLAGS, .vmreadA EXIT_REASON]
  let regs1 := { s1.registers with rip := rip2, rsp := rsp2, rflags := rfl2 }
  { s1 with registers := regs1 }

/-- Embedding of Vmx::run (vmx.rs lines 75-127): enable VMX operation
(CR4.VMXE, lock bit, CR fixup, VMXON), initialize the VMCS region
(VMCLEAR, VMPTRLD), populate guest, host and control fields, launch, and
copy the exit state back. run performs no capability probe itself:
has_intel_cpu / has_vmx_support are separate associated functions. -/
def Vmx.run (env : RunEnv) : RunResult :=
  let s0 : RunState :=
    { trace := [], cr0 := env.cr0, cr4 := env.cr4, registers := {},
      launched := false }
  match (do
    let s1 ← enable_vmx_operation env s0
    let s2 ← init_vmcs_region env s1
    let s3 ← init_guest_register_state env s2
    let s4 ← init_host_register_state env s3
    let s5 ← init_vmcs_control_values env s4
    let s6 ← launch_phase env s5
    return post_exit_reads env s6 : Except RunFail RunState) with
  | .ok s => ⟨.ok, s⟩
  | .error f => ⟨f.kind, f.state⟩

/-- True when a trace contains no capability-probe action. -/
def probe_free (l : List VmxAction) : Bool :=
  l.all (fun a => a != .probeVendor && a != .probeVmx)

/-! ## Environments and inputs used by witnesses and counterexamples -/

def msrEnvZero : MsrEnv := ⟨fun _ => 0⟩

def msrEnvOne : MsrEnv := ⟨fun _ => 1⟩

def msrEnvW : MsrEnv := ⟨fun _ => 0x100000001⟩

instance {ε α : Type} [DecidableEq ε] [DecidableEq α] :
    DecidableEq (Except ε α)
  | .error x, .error y =>
    if h : x = y then .isTrue (by rw [h])
    else .isFalse (fun hc => h (Except.error.inj hc))
  | .error _, .ok _ => .isFalse (fun hc => Except.noConfusion hc)
  | .ok _, .error _ => .isFalse (fun hc => Except.noConfusion hc)
  | .ok x, .ok y =>
    if h : x = y then .isTrue (by rw [h])
    else .isFalse (fun hc => h (Except.ok.inj hc))

/-- The run state a phase left behind, whether it succeeded or failed. -/
def stepState (r : Except RunFail RunState) : RunState :=
  match r with
  | .ok s => s
  | .error f => f.state

/-- A stop status that is not one of the probe failures. -/
def benign (k : RunStatus) : Prop :=
  k ≠ .err .CPUUnsupported ∧ k ≠ .err .VMXUnsupported

instance (k : RunStatus) : Decidable (benign k) := by
  unfold benign; infer_instance

/-- Shape of a run phase outcome: it appends a probe-free action list to
the trace and can only stop with a status other than the probe
failures. -/
def phase_shape (s : RunState) (r : Except RunFail RunState) : Prop :=
  (∃ l, probe_free l = true ∧ (stepState r).trace = s.trace ++ l) ∧
  ∀ f, r = .error f → benign f.kind

/-- Hook manager mapping 0xDEADBEEF to a Function hook with handler 0. -/
def find_function_zero : Nat → Option Hook :=
  fun a => if a = 0xDEADBEEF then some ⟨.Function 0⟩ else none

/-- Hook manager mapping 0xDEADBEEF to a Function hook with handler
0xCAFE (the spec's P8 scenario). -/
def find_function_cafe : Nat → Option Hook :=
  fun a => if a = 0xDEADBEEF then some ⟨.Function 0xCAFE⟩ else none

/-- Shadow registers with RIP at the hooked address. -/
def regsAtBp : GuestRegisters := { rip := 0xDEADBEEF }

/-- MSR values of a machine whose IA32_FEATURE_CONTROL is locked with
VMXON-outside-SMX allowed and whose CR fixed MSRs force only PE/NE
(CR0) and VMXE (CR4). -/
def rdmsrC9 : Nat → Nat := fun m =>
  if m = IA32_FEATURE_CONTROL then 5
  else if m = IA32_VMX_CR0_FIXED0 then 0x21
  else if m = IA32_VMX_CR0_FIXED1 then 0xFFFFFFFFFFFFFFFF
  else if m = IA32_VMX_CR4_FIXED0 then 0x2000
  else if m = IA32_VMX_CR4_FIXED1 then 0xFFFFFFFFFFFFFFFF
  else 0

def ctxC9 : Context :=
  { seg_cs := 8, seg_ss := 8, seg_ds := 8, seg_es := 8, seg_fs := 8,
    seg_gs := 8 }

def gdtC9 : List GdtEntry :=
  [⟨0, 0, 0, 0, 0, 0⟩, ⟨0xFFFF, 0, 0, 0x9B, 0xA0, 0⟩]

/-- A concrete run environment for a CPU that is NOT GenuineIntel and has
no VMX support, on which every hardware operation nevertheless
succeeds. -/
def envC9 : RunEnv :=
  { vendor_is_intel := false, has_vmx := false,
    rdmsr := rdmsrC9, cr0 := 0x80010031, cr3 := 0x1AB000, cr4 := 0x2678,
    context := ctxC9, gdt := gdtC9, gdt_u64 := [0, 0xCF9B000000FFFF],
    idtr_base := 0x4000, idtr_limit := 0xFFF, gdtr_base := 0x5000,
    gdtr_limit := 15,
    ldtr := 8, tr := 8, cs := 8, ss := 8, ds := 8, es := 8, fs := 8, gs := 8,
    phys := fun _ => 0x5000, vmxon_va := 0x100000, vmcs_va := 0x101000,
    vmxon_ok := true, vmclear_ok := true, vmptrld_ok := true,
    tss_descriptor := 0x89000000000068, tss_base := 0x6000,
    host_gdt_base := 0x7000,
    launch_flags := 0, vmread_val := fun _ => 0 }

/-! # Theorems -/

/-! ## General bit lemmas -/

theorem testBit_high_false {x n i : Nat} (h : x < 2 ^ n) (hni : n ≤ i) :
    x.testBit i = false :=
  Nat.testBit_lt_two_pow
    (lt_of_lt_of_le h (Nat.pow_le_pow_right (by norm_num) hni))

theorem land_land_xor_mask_eq_zero (y a m : Nat) (ha : a < 2 ^ m) :
    (y &&& a) &&& (a ^^^ (2 ^ m - 1)) = 0 := by
  apply Nat.eq_of_testBit_eq
  intro i
  simp only [Nat.testBit_and, Nat.testBit_xor, Nat.testBit_two_pow_sub_one,
    Nat.zero_testBit]
  rcases Nat.lt_or_ge i m with hi | hi
  · rcases h : a.testBit i <;> simp [h, hi]
  · rw [testBit_high_false ha hi]
    simp

theorem lor_land_absorb (r a b : Nat) (hab : a &&& b = a) :
    ((r ||| a) &&& b) ||| a = (r ||| a) &&& b := by
  apply Nat.eq_of_testBit_eq
  intro i
  have hb : a.testBit i = (a.testBit i && b.testBit i) := by
    conv_lhs => rw [← hab]
    simp [Nat.testBit_and]
  simp only [Nat.testBit_and, Nat.testBit_or]
  rcases h1 : a.testBit i <;> rcases h2 : b.testBit i <;>
    rcases h3 : r.testBit i <;> simp_all

theorem land_land_sub (y f m : Nat) : (y &&& (f &&& m)) &&& f = y &&& (f &&& m) := by
  apply Nat.eq_of_testBit_eq
  intro i
  simp only [Nat.testBit_and]
  rcases h1 : y.testBit i <;> rcases h2 : f.testBit i <;>
    rcases h3 : m.testBit i <;> simp_all

/-! ## C10: unpack_gdt_entry panics on an out-of-range non-zero index -/

/-- C10: for every GDT slice and every selector with selector/8 non-zero
and at least the slice length, unpack_gdt_entry performs an out-of-bounds
slice access and panics (none in the embedding), so totality requires
selector/8 < gdt.length. -/
theorem unpack_gdt_entry_oob_panics (gdt : List GdtEntry) (selector : Nat)
    (hidx : selector / 8 ≠ 0) (hlen : gdt.length ≤ selector / 8) :
    unpack_gdt_entry gdt selector = none := by
  unfold unpack_gdt_entry
  simp only [hidx, if_false]
  rw [List.getElem?_eq_none hlen]

/-- Witness for C10 at gdt of length 1 and selector 8. -/
theorem unpack_gdt_entry_oob_panics_witness :
    unpack_gdt_entry [⟨0, 0, 0, 0, 0, 0⟩] 8 = none :=
  unpack_gdt_entry_oob_panics [⟨0, 0, 0, 0, 0, 0⟩] 8 (by decide) (by decide)

/-! ## C6: set_lock_bit -/

/-- C6: set_lock_bit with the IA32_FEATURE_CONTROL value v: if bit 0 is
clear it writes back v with bits 2 and 0 set and returns Ok; if bit 0 is
set and bit 2 clear it returns VmxBiosLock without writing; if both are
set it returns Ok without writing. It fails exactly when the MSR is
locked without VMXON-outside-SMX permission. -/
theorem set_lock_bit_spec (v : Nat) :
    (v &&& 1 = 0 → set_lock_bit v = .ok (some ((1 <<< 2) ||| (1 <<< 0) ||| v))) ∧
    (v &&& 1 ≠ 0 → v &&& 4 = 0 → set_lock_bit v = .error .VMXBIOSLock) ∧
    (v &&& 1 ≠ 0 → v &&& 4 ≠ 0 → set_lock_bit v = .ok none) ∧
    (set_lock_bit v = .error .VMXBIOSLock ↔ (v &&& 1 ≠ 0 ∧ v &&& 4 = 0)) := by
  unfold set_lock_bit
  rcases h1 : v &&& 1 with _ | n1 <;> rcases h2 : v &&& 4 with _ | n2 <;>
    simp [h1, h2]

/-- Witness for C6 at the three concrete inputs 0 (unlocked), 1 (locked
without outside-SMX), 5 (locked with outside-SMX). -/
theorem set_lock_bit_spec_witness :
    set_lock_bit 0 = .ok (some ((1 <<< 2) ||| (1 <<< 0) ||| 0)) ∧
    set_lock_bit 1 = .error .VMXBIOSLock ∧
    set_lock_bit 5 = .ok none :=
  ⟨(set_lock_bit_spec 0).1 (by decide),
   (set_lock_bit_spec 1).2.1 (by decide) (by decide),
   (set_lock_bit_spec 5).2.2.1 (by decide) (by decide)⟩

/-! ## C1: adjust_vmx_controls -/

/-- C1 counterexample: the claim quantifies over every requested value
and asserts both identities for the machine's capability words, but (a)
at requested value 2 ^ 32 the function panics in u32::try_from instead
of returning the claimed value, and (b) with a capability MSR reading 1
(allowed0 = 1, allowed1 = 0) the returned value 0 does not satisfy
(result | allowed0) == result. -/
theorem adjust_vmx_controls_claim_counterexample :
    adjust_vmx_controls msrEnvZero .PinBased (2 ^ 32) = none ∧
    adjust_vmx_controls msrEnvOne .PinBased 0 = some 0 ∧
    (0 : Nat) ||| vmx_allowed0 msrEnvOne .PinBased ≠ 0 := by
  refine ⟨?_, ?_, ?_⟩ <;> decide

/-- C1 (amended): for every control class and every requested value that
fits in 32 bits, adjust_vmx_controls returns
(requested | allowed0) & allowed1 as a 32-bit value (zero-extended),
where allowed0/allowed1 are the low/high 32 bits of the capability MSR
selected for the class (TRUE variant iff IA32_VMX_BASIC bit 55 is set,
except ProcessorBased2); (result & ~allowed1) == 0 holds, and provided
the capability word is consistent (every allowed0 bit is also an
allowed1 bit, as the SDM guarantees), (result | allowed0) == result. -/
theorem adjust_vmx_controls_correct (env : MsrEnv) (control : VmxControl)
    (requested : Nat) (hreq : requested < 2 ^ 32)
    (hcap : vmx_allowed0 env control &&& vmx_allowed1 env control =
      vmx_allowed0 env control) :
    adjust_vmx_controls env control requested =
      some ((requested ||| vmx_allowed0 env control) &&&
        vmx_allowed1 env control) ∧
    (requested ||| vmx_allowed0 env control) &&& vmx_allowed1 env control <
      2 ^ 32 ∧
    ((requested ||| vmx_allowed0 env control) &&& vmx_allowed1 env control) |||
      vmx_allowed0 env control =
      (requested ||| vmx_allowed0 env control) &&& vmx_allowed1 env control ∧
    ((requested ||| vmx_allowed0 env control) &&& vmx_allowed1 env control) &&&
      (vmx_allowed1 env control ^^^ (2 ^ 32 - 1)) = 0 := by
  have ha1 : vmx_allowed1 env control < 2 ^ 32 := by
    unfold vmx_allowed1 MsrEnv.read64
    rw [Nat.shiftRight_eq_div_pow]
    have : env.rdmsr (vmx_cap_msr env control) % 2 ^ 64 < 2 ^ 64 :=
      Nat.mod_lt _ (by norm_num)
    omega
  refine ⟨?_, ?_, ?_, ?_⟩
  · unfold adjust_vmx_controls vmx_allowed0 vmx_allowed1
    simp only [if_pos hreq]
  · exact lt_of_le_of_lt (Nat.and_le_right) ha1
  · exact lor_land_absorb _ _ _ hcap
  · exact land_land_xor_mask_eq_zero _ _ _ ha1

/-- Witness for C1 (amended) at a capability word 0x100000001
(allowed0 = allowed1 = 1) and requested value 3. -/
theorem adjust_vmx_controls_correct_witness :
    adjust_vmx_controls msrEnvW .ProcessorBased2 3 =
      some ((3 ||| vmx_allowed0 msrEnvW .ProcessorBased2) &&&
        vmx_allowed1 msrEnvW .ProcessorBased2) ∧
    (3 ||| vmx_allowed0 msrEnvW .ProcessorBased2) &&&
      vmx_allowed1 msrEnvW .ProcessorBased2 < 2 ^ 32 ∧
    ((3 ||| vmx_allowed0 msrEnvW .ProcessorBased2) &&&
      vmx_allowed1 msrEnvW .ProcessorBased2) |||
      vmx_allowed0 msrEnvW .ProcessorBased2 =
      (3 ||| vmx_allowed0 msrEnvW .ProcessorBased2) &&&
        vmx_allowed1 msrEnvW .ProcessorBased2 ∧
    ((3 ||| vmx_allowed0 msrEnvW .ProcessorBased2) &&&
      vmx_allowed1 msrEnvW .ProcessorBased2) &&&
      (vmx_allowed1 msrEnvW .ProcessorBased2 ^^^ (2 ^ 32 - 1)) = 0 :=
  adjust_vmx_controls_correct msrEnvW .ProcessorBased2 3 (by decide) (by decide)

/-! ## C7: CR0/CR4 fixup -/

/-- C7 counterexample: the claim quantifies over every pair of fixed MSR
values. With fixed0 = 1, fixed1 = 0 the result 0 violates
(cr | fixed0) == cr (a fixed0 bit outside fixed1 is dropped by the and),
and with fixed0 = 0x40 (not a flag of the Cr0 type) and fixed1 all ones
the bit is dropped by from_bits_truncate, violating the same identity. -/
theorem set_cr_bits_claim_counterexample :
    set_cr0_bits 0 1 0 = 0 ∧
    set_cr0_bits 0 1 0 ||| 1 ≠ set_cr0_bits 0 1 0 ∧
    set_cr4_bits 0 1 0 = 0 ∧
    set_cr4_bits 0 1 0 ||| 1 ≠ set_cr4_bits 0 1 0 ∧
    set_cr0_bits 0 0x40 (2 ^ 64 - 1) = 0 ∧
    set_cr0_bits 0 0x40 (2 ^ 64 - 1) ||| 0x40 ≠
      set_cr0_bits 0 0x40 (2 ^ 64 - 1) := by
  refine ⟨?_, ?_, ?_, ?_, ?_, ?_⟩ <;> decide

/-- C7 (amended): after set_cr0_bits and set_cr4_bits, the resulting CR
value satisfies (cr & fixed1) == cr unconditionally, and
(cr | fixed0) == cr provided every bit set in fixed0 is also set in
fixed1 and lies within the flags the control-register type knows (both
hold for the hardware IA32_VMX_CR{0,4}_FIXED MSR values). -/
theorem set_cr_bits_correct (cr0 f0 f1 cr4 g0 g1 : Nat)
    (h0 : f0 &&& f1 = f0) (h0m : f0 &&& CR0_FLAGS_MASK = f0)
    (h4 : g0 &&& g1 = g0) (h4m : g0 &&& CR4_FLAGS_MASK = g0) :
    set_cr0_bits cr0 f0 f1 &&& f1 = set_cr0_bits cr0 f0 f1 ∧
    set_cr0_bits cr0 f0 f1 ||| f0 = set_cr0_bits cr0 f0 f1 ∧
    set_cr4_bits cr4 g0 g1 &&& g1 = set_cr4_bits cr4 g0 g1 ∧
    set_cr4_bits cr4 g0 g1 ||| g0 = set_cr4_bits cr4 g0 g1 := by
  have hassoc0 : f0 &&& (f1 &&& CR0_FLAGS_MASK) = f0 := by
    rw [← Nat.land_assoc, h0, h0m]
  have hassoc4 : g0 &&& (g1 &&& CR4_FLAGS_MASK) = g0 := by
    rw [← Nat.land_assoc, h4, h4m]
  refine ⟨?_, ?_, ?_, ?_⟩
  · exact land_land_sub _ _ _
  · unfold set_cr0_bits
    rw [h0m]
    exact lor_land_absorb _ _ _ hassoc0
  · exact land_land_sub _ _ _
  · unfold set_cr4_bits
    rw [h4m]
    exact lor_land_absorb _ _ _ hassoc4

/-- Witness for C7 (amended): CR0 fixed MSRs (0x21, all-ones) and CR4
fixed MSRs (0x2000, all-ones), starting values 0x8001003B and 0x2678. -/
theorem set_cr_bits_correct_witness :
    set_cr0_bits 0x8001003B 0x21 (2 ^ 64 - 1) &&& (2 ^ 64 - 1) =
      set_cr0_bits 0x8001003B 0x21 (2 ^ 64 - 1) ∧
    set_cr0_bits 0x8001003B 0x21 (2 ^ 64 - 1) ||| 0x21 =
      set_cr0_bits 0x8001003B 0x21 (2 ^ 64 - 1) ∧
    set_cr4_bits 0x2678 0x2000 (2 ^ 64 - 1) &&& (2 ^ 64 - 1) =
      set_cr4_bits 0x2678 0x2000 (2 ^ 64 - 1) ∧
    set_cr4_bits 0x2678 0x2000 (2 ^ 64 - 1) ||| 0x2000 =
      set_cr4_bits 0x2678 0x2000 (2 ^ 64 - 1) :=
  set_cr_bits_correct 0x8001003B 0x21 (2 ^ 64 - 1) 0x2678 0x2000 (2 ^ 64 - 1)
    (by decide) (by decide) (by decide) (by decide)

/-! ## Bit lemmas for the access-rights packing -/

theorem ar_low (a g : Nat) (ha : a < 2 ^ 8) :
    ((a ||| ((g &&& 0xf0) <<< 8)) &&& 0xf0ff) &&& 0xFF = a := by
  apply Nat.eq_of_testBit_eq
  intro i
  simp only [Nat.testBit_and, Nat.testBit_or, Nat.testBit_shiftLeft]
  rcases Nat.lt_or_ge i 8 with hi | hi
  · have h1 : (0xf0ff : Nat).testBit i = true := by interval_cases i <;> decide
    have h2 : (0xFF : Nat).testBit i = true := by interval_cases i <;> decide
    have h3 : decide (8 ≤ i) = false := by simp; omega
    simp [h1, h2, h3]
  · have h2 : (0xFF : Nat).testBit i = false := testBit_high_false (by decide) hi
    rw [testBit_high_false ha hi]
    simp [h2]

theorem ar_mid (a g : Nat) :
    (((a ||| ((g &&& 0xf0) <<< 8)) &&& 0xf0ff) >>> 8) &&& 0xF = 0 := by
  apply Nat.eq_of_testBit_eq
  intro i
  simp only [Nat.testBit_and, Nat.testBit_shiftRight, Nat.zero_testBit]
  rcases Nat.lt_or_ge i 4 with hi | hi
  · have h1 : (0xf0ff : Nat).testBit (8 + i) = false := by
      interval_cases i <;> decide
    simp [h1]
  · have h2 : (0xF : Nat).testBit i = false := testBit_high_false (by decide) hi
    simp [h2]

theorem ar_high (a g : Nat) (ha : a < 2 ^ 8) :
    (((a ||| ((g &&& 0xf0) <<< 8)) &&& 0xf0ff) >>> 12) &&& 0xF =
      (g &&& 0xF0) >>> 4 := by
  apply Nat.eq_of_testBit_eq
  intro i
  simp only [Nat.testBit_and, Nat.testBit_or, Nat.testBit_shiftRight,
    Nat.testBit_shiftLeft]
  rcases Nat.lt_or_ge i 4 with hi | hi
  · have h1 : (0xf0ff : Nat).testBit (12 + i) = true := by
      interval_cases i <;> decide
    have h2 : (0xF : Nat).testBit i = true := by interval_cases i <;> decide
    have h3 : a.testBit (12 + i) = false := testBit_high_false ha (by omega)
    have h4 : decide (8 ≤ 12 + i) = true := by
      simp only [decide_eq_true_eq]; omega
    have h5 : 12 + i - 8 = 4 + i := by omega
    simp [h1, h2, h3, h4, h5]
  · have h2 : (0xF : Nat).testBit i = false := testBit_high_false (by decide) hi
    have h7 : Nat.testBit 240 (4 + i) = false :=
      testBit_high_false (by decide : (240 : Nat) < 2 ^ 8) (by omega)
    simp [h2, h7]

theorem ar_lt (a g : Nat) :
    (a ||| ((g &&& 0xf0) <<< 8)) &&& 0xf0ff < 2 ^ 16 :=
  lt_of_le_of_lt Nat.and_le_right (by norm_num)

theorem lor_unusable_low (x : Nat) :
    (x ||| (1 <<< 16)) &&& 0xFF = x &&& 0xFF := by
  apply Nat.eq_of_testBit_eq
  intro i
  simp only [Nat.testBit_and, Nat.testBit_or]
  rcases Nat.lt_or_ge i 8 with hi | hi
  · have h1 : Nat.testBit 65536 i = false := by interval_cases i <;> decide
    simp [h1]
  · have h2 : (0xFF : Nat).testBit i = false := testBit_high_false (by decide) hi
    simp [h2]

theorem lor_unusable_mid (x : Nat) :
    ((x ||| (1 <<< 16)) >>> 8) &&& 0xF = (x >>> 8) &&& 0xF := by
  apply Nat.eq_of_testBit_eq
  intro i
  simp only [Nat.testBit_and, Nat.testBit_or, Nat.testBit_shiftRight]
  rcases Nat.lt_or_ge i 4 with hi | hi
  · have h1 : Nat.testBit 65536 (8 + i) = false := by
      interval_cases i <;> decide
    simp [h1]
  · have h2 : (0xF : Nat).testBit i = false := testBit_high_false (by decide) hi
    simp [h2]

theorem lor_unusable_high (x : Nat) :
    ((x ||| (1 <<< 16)) >>> 12) &&& 0xF = (x >>> 12) &&& 0xF := by
  apply Nat.eq_of_testBit_eq
  intro i
  simp only [Nat.testBit_and, Nat.testBit_or, Nat.testBit_shiftRight]
  rcases Nat.lt_or_ge i 4 with hi | hi
  · have h1 : Nat.testBit 65536 (12 + i) = false := by
      interval_cases i <;> decide
    simp [h1]
  · have h2 : (0xF : Nat).testBit i = false := testBit_high_false (by decide) hi
    simp [h2]

theorem lor_unusable_bit16 (x : Nat) : (x ||| (1 <<< 16)).testBit 16 = true := by
  rw [Nat.testBit_or]
  have h1 : Nat.testBit 65536 16 = true := by decide
  simp [h1]

theorem lor3_comm (A B C : Nat) : (A ||| B) ||| C = (C ||| B) ||| A := by
  apply Nat.eq_of_testBit_eq
  intro i
  simp only [Nat.testBit_or]
  rcases A.testBit i <;> rcases B.testBit i <;> rcases C.testBit i <;> simp

/-! ## C3: unpack_gdt_entry field packing -/

/-- C3 counterexample: for the present code-segment style entry with
granularity byte 0xA0 at index 1, the produced access-rights word is
0xA09B: its bits 8..12 are zero, not the high granularity nibble 0xA the
claim puts there (the nibble sits in bits 12..16). -/
theorem unpack_gdt_entry_claim_counterexample :
    unpack_gdt_entry
      [⟨0, 0, 0, 0, 0, 0⟩, ⟨0xABCD, 0x1234, 0x56, 0x9B, 0xA0, 0x78⟩] 8 =
      some ⟨0x78561234, 0xABCD, 0xA09B, 8⟩ ∧
    ((0xA09B : Nat) >>> 8) &&& 0xF = 0 ∧
    (((0xA0 : Nat) &&& 0xF0) >>> 4) = 0xA ∧
    ((0xA09B : Nat) >>> 8) &&& 0xF ≠ ((0xA0 : Nat) &&& 0xF0) >>> 4 := by
  refine ⟨?_, ?_, ?_, ?_⟩ <;> decide

/-- C3 (amended): for every GDT slice and selector whose index
selector/8 lies in [1, gdt_len), unpack_gdt_entry returns base
base_low | (base_middle << 16) | (base_high << 24), limit
limit_low | ((granularity & 0x0f) << 16), and an access-rights word whose
low byte is the GDT access byte, whose bits 8..12 are zero, whose bits
12..16 are the high nibble of the granularity byte (shifted right by 4),
and which has the unusable bit (bit 16) set exactly when the present bit
is clear; for an index-0 selector the result is the all-zero entry marked
unusable. -/
theorem unpack_gdt_entry_correct (gdt : List GdtEntry) (selector : Nat)
    (e : GdtEntry) (hidx : selector / 8 ≠ 0)
    (hget : gdt[selector / 8]? = some e) (hwf : e.WF) :
    (unpack_gdt_entry gdt selector).isSome = true ∧
    (∀ u, unpack_gdt_entry gdt selector = some u →
      u.base = e.base_low ||| (e.base_middle <<< 16) ||| (e.base_high <<< 24) ∧
      u.limit = e.limit_low ||| ((e.granularity &&& 0x0f) <<< 16) ∧
      u.access_rights &&& 0xFF = e.access ∧
      (u.access_rights >>> 8) &&& 0xF = 0 ∧
      (u.access_rights >>> 12) &&& 0xF = (e.granularity &&& 0xF0) >>> 4 ∧
      (u.access_rights.testBit 16 = true ↔
        e.access &&& GDT_ENTRY_ACCESS_PRESENT = 0) ∧
      u.selector = selector) ∧
    (∀ s0, s0 / 8 = 0 →
      unpack_gdt_entry gdt s0 = some ⟨0, 0, VMX_INFO_SEGMENT_UNUSABLE, 0⟩) := by
  obtain ⟨hll, hbl, hbm, hacc, hgr, hbh⟩ := hwf
  have hu : unpack_gdt_entry gdt selector = some
      { base := (e.base_high <<< 24) ||| (e.base_middle <<< 16) ||| e.base_low
        limit := e.limit_low ||| ((e.granularity &&& 0x0f) <<< 16)
        access_rights :=
          if e.access &&& GDT_ENTRY_ACCESS_PRESENT = 0 then
            ((e.access ||| ((e.granularity &&& 0xf0) <<< 8)) &&& 0xf0ff) |||
              VMX_INFO_SEGMENT_UNUSABLE
          else (e.access ||| ((e.granularity &&& 0xf0) <<< 8)) &&& 0xf0ff
        selector := selector } := by
    simp only [unpack_gdt_entry]
    rw [if_neg hidx, hget]
  refine ⟨by rw [hu]; rfl, ?_, ?_⟩
  · intro u huu
    rw [hu] at huu
    obtain rfl := Option.some.inj huu
    refine ⟨lor3_comm _ _ _, rfl, ?_, ?_, ?_, ?_, rfl⟩
    · by_cases hp : e.access &&& GDT_ENTRY_ACCESS_PRESENT = 0
      · rw [if_pos hp]
        simp only [VMX_INFO_SEGMENT_UNUSABLE]
        rw [lor_unusable_low]
        exact ar_low _ _ hacc
      · rw [if_neg hp]
        exact ar_low _ _ hacc
    · by_cases hp : e.access &&& GDT_ENTRY_ACCESS_PRESENT = 0
      · rw [if_pos hp]
        simp only [VMX_INFO_SEGMENT_UNUSABLE]
        rw [lor_unusable_mid]
        exact ar_mid _ _
      · rw [if_neg hp]
        exact ar_mid _ _
    · by_cases hp : e.access &&& GDT_ENTRY_ACCESS_PRESENT = 0
      · rw [if_pos hp]
        simp only [VMX_INFO_SEGMENT_UNUSABLE]
        rw [lor_unusable_high]
        exact ar_high _ _ hacc
      · rw [if_neg hp]
        exact ar_high _ _ hacc
    · by_cases hp : e.access &&& GDT_ENTRY_ACCESS_PRESENT = 0
      · rw [if_pos hp]
        simp only [VMX_INFO_SEGMENT_UNUSABLE]
        rw [lor_unusable_bit16]
        simp [hp]
      · rw [if_neg hp]
        have hlt : ((e.access ||| ((e.granularity &&& 0xf0) <<< 8)) &&&
            0xf0ff).testBit 16 = false :=
          testBit_high_false (ar_lt _ _) (le_refl 16)
        simp [hlt, hp]
  · intro s0 hs0
    simp only [unpack_gdt_entry]
    rw [if_pos hs0]
    decide

/-- Witness for C3 (amended) at a two-entry GDT and selector 8, plus the
index-0 clause at selector 3. -/
theorem unpack_gdt_entry_correct_witness :
    (unpack_gdt_entry
      [⟨0, 0, 0, 0, 0, 0⟩, ⟨0x2F, 0x1000, 0x20, 0x1B, 0x50, 0x40⟩] 8).isSome =
      true ∧
    unpack_gdt_entry
      [⟨0, 0, 0, 0, 0, 0⟩, ⟨0x2F, 0x1000, 0x20, 0x1B, 0x50, 0x40⟩] 3 =
      some ⟨0, 0, VMX_INFO_SEGMENT_UNUSABLE, 0⟩ := by
  have h := unpack_gdt_entry_correct
    [⟨0, 0, 0, 0, 0, 0⟩, ⟨0x2F, 0x1000, 0x20, 0x1B, 0x50, 0x40⟩] 8
    ⟨0x2F, 0x1000, 0x20, 0x1B, 0x50, 0x40⟩
    (by decide) (by decide) (by decide)
  exact ⟨h.1, h.2.2 3 (by decide)⟩

/-! ## Entry bitfield lemmas -/

theorem testBit_set_pfn_low (e v i : Nat) (hi : i < 12) :
    (Entry.set_pfn e v).testBit i = e.testBit i := by
  have hmask : (0xFFFFFFFFFFFFFFFF : Nat) = 2 ^ 64 - 1 := by norm_num
  have h40 : (1 <<< 40 : Nat) - 1 = 2 ^ 40 - 1 := by rw [Nat.one_shiftLeft]
  unfold Entry.set_pfn PFN_FIELD_MASK
  rw [hmask, h40]
  simp only [Nat.testBit_and, Nat.testBit_or, Nat.testBit_shiftLeft,
    Nat.testBit_xor, Nat.testBit_two_pow_sub_one]
  have d1 : decide (i < 64) = true := by simp only [decide_eq_true_eq]; omega
  have d2 : decide (12 ≤ i) = false := by
    simp only [decide_eq_false_iff_not]; omega
  simp [d1, d2]

theorem pfn_set_pfn (e v : Nat) :
    Entry.pfn (Entry.set_pfn e v) = v &&& ((1 <<< 40) - 1) := by
  have hmask : (0xFFFFFFFFFFFFFFFF : Nat) = 2 ^ 64 - 1 := by norm_num
  have h40 : (1 <<< 40 : Nat) - 1 = 2 ^ 40 - 1 := by rw [Nat.one_shiftLeft]
  unfold Entry.pfn Entry.set_pfn PFN_FIELD_MASK
  rw [hmask, h40]
  apply Nat.eq_of_testBit_eq
  intro i
  simp only [Nat.testBit_and, Nat.testBit_or, Nat.testBit_shiftRight,
    Nat.testBit_shiftLeft, Nat.testBit_xor, Nat.testBit_two_pow_sub_one]
  rcases Nat.lt_or_ge i 40 with hi | hi
  · have d1 : decide (12 + i < 64) = true := by
      simp only [decide_eq_true_eq]; omega
    have d2 : decide (12 ≤ 12 + i) = true := by
      simp only [decide_eq_true_eq]; omega
    have d3 : 12 + i - 12 = i := by omega
    have d4 : decide (i < 40) = true := by simp only [decide_eq_true_eq]; omega
    simp [d1, d2, d3, d4]
  · have d4 : decide (i < 40) = false := by
      simp only [decide_eq_false_iff_not]; omega
    simp [d4]

theorem pfn_set_pfn_of_lt (e v : Nat) (hv : v < 2 ^ 40) :
    Entry.pfn (Entry.set_pfn e v) = v := by
  rw [pfn_set_pfn]
  have h40 : (1 <<< 40 : Nat) - 1 = 2 ^ 40 - 1 := by rw [Nat.one_shiftLeft]
  rw [h40, Nat.and_pow_two_sub_one_eq_mod, Nat.mod_eq_of_lt hv]

theorem entry_bits_pdpt (x v : Nat) :
    Entry.present (Entry.set_pfn (Entry.set_writable (Entry.set_present x)) v) =
      true ∧
    Entry.writable (Entry.set_pfn (Entry.set_writable (Entry.set_present x)) v) =
      true := by
  have t10 : Nat.testBit 1 0 = true := by decide
  have t21 : Nat.testBit 2 1 = true := by decide
  constructor
  · rw [Entry.present, testBit_set_pfn_low _ _ _ (by omega)]
    simp [Entry.set_writable, Entry.set_present, Nat.testBit_or, t10]
  · rw [Entry.writable, testBit_set_pfn_low _ _ _ (by omega)]
    simp [Entry.set_writable, Entry.set_present, Nat.testBit_or, t21]

theorem entry_bits_pd (x v : Nat) :
    Entry.present
      (Entry.set_pfn
        (Entry.set_large (Entry.set_writable (Entry.set_present x))) v) = true ∧
    Entry.writable
      (Entry.set_pfn
        (Entry.set_large (Entry.set_writable (Entry.set_present x))) v) = true ∧
    Entry.large
      (Entry.set_pfn
        (Entry.set_large (Entry.set_writable (Entry.set_present x))) v) =
      true := by
  have t10 : Nat.testBit 1 0 = true := by decide
  have t21 : Nat.testBit 2 1 = true := by decide
  have t77 : Nat.testBit 128 7 = true := by decide
  refine ⟨?_, ?_, ?_⟩
  · rw [Entry.present, testBit_set_pfn_low _ _ _ (by omega)]
    simp [Entry.set_large, Entry.set_writable, Entry.set_present,
      Nat.testBit_or, t10]
  · rw [Entry.writable, testBit_set_pfn_low _ _ _ (by omega)]
    simp [Entry.set_large, Entry.set_writable, Entry.set_present,
      Nat.testBit_or, t21]
  · rw [Entry.large, testBit_set_pfn_low _ _ _ (by omega)]
    simp [Entry.set_large, Entry.set_writable, Entry.set_present,
      Nat.testBit_or, t77]

/-! ## C8: build_identity -/

/-- C8: after build_identity, PML4 entry 0 is present, writable and
points at the PDPT; every PDPT entry i is present, writable and points
at PD[i]; every PD entry (i, j) is present, writable, large and has pfn
((i * 512 + j) * 2 MiB) >> 12; the PT level is never written. The
physical addresses of the intermediate tables are assumed to fit the
52-bit physical address space, so their page frame numbers fit the
40-bit pfn field. -/
theorem build_identity_correct (t : PageTables) (pdpt_pa : Nat)
    (pd_pa : Fin 512 → Nat) (hp : pdpt_pa < 2 ^ 52)
    (hpd : ∀ i, pd_pa i < 2 ^ 52) :
    Entry.present ((build_identity t pdpt_pa pd_pa).pml4 0) = true ∧
    Entry.writable ((build_identity t pdpt_pa pd_pa).pml4 0) = true ∧
    Entry.pfn ((build_identity t pdpt_pa pd_pa).pml4 0) =
      pdpt_pa >>> BASE_PAGE_SHIFT ∧
    (∀ i : Fin 512,
      Entry.present ((build_identity t pdpt_pa pd_pa).pdpt i) = true ∧
      Entry.writable ((build_identity t pdpt_pa pd_pa).pdpt i) = true ∧
      Entry.pfn ((build_identity t pdpt_pa pd_pa).pdpt i) =
        pd_pa i >>> BASE_PAGE_SHIFT) ∧
    (∀ i j : Fin 512,
      Entry.present ((build_identity t pdpt_pa pd_pa).pd i j) = true ∧
      Entry.writable ((build_identity t pdpt_pa pd_pa).pd i j) = true ∧
      Entry.large ((build_identity t pdpt_pa pd_pa).pd i j) = true ∧
      Entry.pfn ((build_identity t pdpt_pa pd_pa).pd i j) =
        ((i.val * 512 + j.val) * LARGE_PAGE_SIZE) >>> BASE_PAGE_SHIFT) ∧
    (build_identity t pdpt_pa pd_pa).pt = t.pt := by
  have hshift : ∀ x : Nat, x < 2 ^ 52 → x >>> BASE_PAGE_SHIFT < 2 ^ 40 := by
    intro x hx
    rw [BASE_PAGE_SHIFT, Nat.shiftRight_eq_div_pow]
    have h1 : (2 : Nat) ^ 40 * 2 ^ 12 = 2 ^ 52 := by norm_num
    rw [Nat.div_lt_iff_lt_mul (by norm_num), h1]
    exact hx
  have hpdshift : ∀ i j : Fin 512,
      ((i.val * 512 + j.val) * LARGE_PAGE_SIZE) >>> BASE_PAGE_SHIFT <
        2 ^ 40 := by
    intro i j
    apply hshift
    have hi := i.isLt
    have hj := j.isLt
    have : (i.val * 512 + j.val) * LARGE_PAGE_SIZE <
        262144 * LARGE_PAGE_SIZE :=
      (Nat.mul_lt_mul_right (by rw [LARGE_PAGE_SIZE]; norm_num)).mpr (by omega)
    calc (i.val * 512 + j.val) * LARGE_PAGE_SIZE
        < 262144 * LARGE_PAGE_SIZE := this
      _ < 2 ^ 52 := by rw [LARGE_PAGE_SIZE]; norm_num
  refine ⟨?_, ?_, ?_, ?_, ?_, rfl⟩
  · simp only [build_identity, if_pos rfl]
    exact (entry_bits_pdpt _ _).1
  · simp only [build_identity, if_pos rfl]
    exact (entry_bits_pdpt _ _).2
  · simp only [build_identity, if_pos rfl]
    exact pfn_set_pfn_of_lt _ _ (hshift _ hp)
  · intro i
    refine ⟨(entry_bits_pdpt _ _).1, (entry_bits_pdpt _ _).2,
      pfn_set_pfn_of_lt _ _ (hshift _ (hpd i))⟩
  · intro i j
    exact ⟨(entry_bits_pd _ _).1, (entry_bits_pd _ _).2.1,
      (entry_bits_pd _ _).2.2, pfn_set_pfn_of_lt _ _ (hpdshift i j)⟩

def pageTablesZero : PageTables :=
  ⟨fun _ => 0, fun _ => 0, fun _ _ => 0, fun _ => 0⟩

/-- Witness for C8 with zeroed tables, PDPT at 0x1000 and every PD at
0x2000; checked at PDPT index 3 and PD index (3, 5). -/
theorem build_identity_correct_witness :
    Entry.present ((build_identity pageTablesZero 0x1000
      (fun _ => 0x2000)).pml4 0) = true ∧
    Entry.pfn ((build_identity pageTablesZero 0x1000
      (fun _ => 0x2000)).pml4 0) = 0x1000 >>> BASE_PAGE_SHIFT ∧
    Entry.pfn ((build_identity pageTablesZero 0x1000
      (fun _ => 0x2000)).pdpt 3) = 0x2000 >>> BASE_PAGE_SHIFT ∧
    Entry.large ((build_identity pageTablesZero 0x1000
      (fun _ => 0x2000)).pd 3 5) = true ∧
    Entry.pfn ((build_identity pageTablesZero 0x1000
      (fun _ => 0x2000)).pd 3 5) =
      ((3 * 512 + 5) * LARGE_PAGE_SIZE) >>> BASE_PAGE_SHIFT ∧
    (build_identity pageTablesZero 0x1000 (fun _ => 0x2000)).pt =
      pageTablesZero.pt := by
  have hpd : ∀ i : Fin 512, (fun _ : Fin 512 => (0x2000 : Nat)) i < 2 ^ 52 := by
    intro i
    show (0x2000 : Nat) < 2 ^ 52
    decide
  have h := build_identity_correct pageTablesZero 0x1000 (fun _ => 0x2000)
    (by decide) hpd
  exact ⟨h.1, h.2.2.1, (h.2.2.2.1 3).2.2, (h.2.2.2.2.1 3 5).2.2.1,
    (h.2.2.2.2.1 3 5).2.2.2, h.2.2.2.2.2⟩

/-! ## C2: breakpoint hook dispatch -/

/-- C2 counterexample: with a Function hook whose handler_address() is
zero at the faulting RIP, the claim's otherwise-branch requires a #BP
injection; the code instead takes the rewrite path, setting both the
shadow RIP and the VMCS guest RIP to 0 and writing no
VMENTRY_INTR_INFO. -/
theorem handle_breakpoint_claim_counterexample :
    handle_breakpoint_exception find_function_zero regsAtBp =
      ({ regsAtBp with rip := 0 }, [(GUEST_RIP, 0)]) ∧
    (handle_breakpoint_exception find_function_zero regsAtBp).2.map
      Prod.fst ≠ [VMENTRY_INTR_INFO] := by
  refine ⟨?_, ?_⟩ <;> decide

/-- C2 (amended): on a #BP exit, if find_hook_by_address(guest rip)
returns a hook of the Function variant, the handler overwrites both the
shadow RIP and the VMCS guest RIP with its handler address (whatever its
value, zero included), injects no event and does not advance RIP;
otherwise (no hook, or a non-Function variant) it injects #BP by writing
VMENTRY_INTR_INFO with valid = 1 and vector = 3, leaving the registers
untouched and RIP unadvanced. -/
theorem handle_breakpoint_correct (find : Nat → Option Hook)
    (regs : GuestRegisters) :
    (∀ h, find regs.rip = some ⟨.Function h⟩ →
      handle_breakpoint_exception find regs =
        ({ regs with rip := h }, [(GUEST_RIP, h)])) ∧
    (find regs.rip = none →
      handle_breakpoint_exception find regs = (regs, vmentry_inject_bp)) ∧
    (find regs.rip = some ⟨.Other⟩ →
      handle_breakpoint_exception find regs = (regs, vmentry_inject_bp)) ∧
    vmentry_inject_bp = [(VMENTRY_INTR_INFO, 0x80000603)] ∧
    (0x80000603 : Nat).testBit 31 = true ∧
    (0x80000603 : Nat) &&& 0xFF = 3 := by
  refine ⟨?_, ?_, ?_, by decide, by decide, by decide⟩
  · intro h hf
    simp [handle_breakpoint_exception, hf]
  · intro hf
    simp [handle_breakpoint_exception, hf]
  · intro hf
    simp [handle_breakpoint_exception, hf]

/-- Witness for C2 (amended): the hit case at the P8 scenario
(0xDEADBEEF mapped to handler 0xCAFE) and the miss case with an empty
hook manager. -/
theorem handle_breakpoint_correct_witness :
    handle_breakpoint_exception find_function_cafe regsAtBp =
      ({ regsAtBp with rip := 0xCAFE }, [(GUEST_RIP, 0xCAFE)]) ∧
    handle_breakpoint_exception (fun _ => none) regsAtBp =
      (regsAtBp, vmentry_inject_bp) :=
  ⟨(handle_breakpoint_correct find_function_cafe regsAtBp).1 0xCAFE
      (by decide),
   (handle_breakpoint_correct (fun _ => none) regsAtBp).2.1 rfl⟩

/-! ## C5: exception exit handler -/

/-- C5 counterexample: at interruption information with vector 4
(overflow, structurally valid), the claim requires the handler to surface
the exit via ExitHypervisor; the code panics instead (the catch-all
panic! arm), so no exit decision is returned at all. -/
theorem handle_exception_claim_counterexample :
    handle_exception (fun _ => none) 4 0 {} =
      .error .unhandledException := by
  decide

/-- C5 (amended): after parsing VMEXIT_INTERRUPTION_INFO and reading
VMEXIT_INTERRUPTION_ERR_CODE, the handler re-injects #PF with the
captured error code on vector 14, re-injects #GP with the error code on
vector 13, runs the breakpoint hook sub-handler on vector 3, and treats
every other vector, as well as interruption info failing structural
validation, as fatal by panicking; it never returns an ExitHypervisor
decision (every normal return is Continue). -/
theorem handle_exception_correct (find : Nat → Option Hook)
    (info err : Nat) (regs : GuestRegisters) :
    (VmExitInterruptionInformation.from_u32 (info % 2 ^ 32) = none →
      handle_exception find info err regs = .error .invalidInterruptionInfo) ∧
    (∀ ii, VmExitInterruptionInformation.from_u32 (info % 2 ^ 32) = some ii →
      (ii.vector = 14 →
        handle_exception find info err regs =
          .ok (.Continue, regs, vmentry_inject_pf (err % 2 ^ 32))) ∧
      (ii.vector = 13 →
        handle_exception find info err regs =
          .ok (.Continue, regs, vmentry_inject_gp (err % 2 ^ 32))) ∧
      (ii.vector = 3 →
        handle_exception find info err regs =
          .ok (.Continue, handle_breakpoint_exception find regs)) ∧
      (ExceptionInterrupt.from_u32 ii.vector = none →
        handle_exception find info err regs =
          .error .invalidExceptionVector) ∧
      (∀ e, ExceptionInterrupt.from_u32 ii.vector = some e →
        e ≠ .PageFault → e ≠ .GeneralProtectionFault → e ≠ .Breakpoint →
        handle_exception find info err regs =
          .error .unhandledException)) ∧
    (∀ r, handle_exception find info err regs = .ok r →
      r.1 = ExitType.Continue) := by
  refine ⟨?_, ?_, ?_⟩
  · intro hn
    unfold handle_exception
    rw [hn]
  · intro ii hii
    refine ⟨?_, ?_, ?_, ?_, ?_⟩
    · intro hv
      unfold handle_exception
      rw [hii]
      simp only []
      rw [hv]
      rfl
    · intro hv
      unfold handle_exception
      rw [hii]
      simp only []
      rw [hv]
      rfl
    · intro hv
      unfold handle_exception
      rw [hii]
      simp only []
      rw [hv]
      rfl
    · intro hv
      unfold handle_exception
      rw [hii]
      simp only []
      rw [hv]
    · intro e he h14 h13 h3
      unfold handle_exception
      rw [hii]
      simp only []
      rw [he]
      cases e <;>
        first
          | rfl
          | exact absurd rfl h14
          | exact absurd rfl h13
          | exact absurd rfl h3
  · intro r hr
    unfold handle_exception at hr
    rcases h1 : VmExitInterruptionInformation.from_u32 (info % 2 ^ 32) with
      _ | ii
    · rw [h1] at hr
      exact Except.noConfusion hr
    · rw [h1] at hr
      simp only [] at hr
      rcases h2 : ExceptionInterrupt.from_u32 ii.vector with _ | e
      · rw [h2] at hr
        exact Except.noConfusion hr
      · rw [h2] at hr
        simp only [] at hr
        cases e <;>
          first
            | exact Except.noConfusion hr
            | (injection hr with h; rw [← h])

/-- Witness for C5 (amended) at the four concrete vectors 14, 13, 3 and
the structurally invalid info value 2 ^ 13. -/
theorem handle_exception_correct_witness :
    handle_exception (fun _ => none) 14 0x18 {} =
      .ok (.Continue, {}, vmentry_inject_pf 0x18) ∧
    handle_exception (fun _ => none) 13 0x18 {} =
      .ok (.Continue, {}, vmentry_inject_gp 0x18) ∧
    handle_exception find_function_cafe 3 0 regsAtBp =
      .ok (.Continue, handle_breakpoint_exception find_function_cafe regsAtBp) ∧
    handle_exception (fun _ => none) (2 ^ 13) 0 {} =
      .error .invalidInterruptionInfo :=
  ⟨((handle_exception_correct (fun _ => none) 14 0x18 {}).2.1
      ⟨14, 0, false, false, false⟩ (by decide)).1 rfl,
   ((handle_exception_correct (fun _ => none) 13 0x18 {}).2.1
      ⟨13, 0, false, false, false⟩ (by decide)).2.1 rfl,
   ((handle_exception_correct find_function_cafe 3 0 regsAtBp).2.1
      ⟨3, 0, false, false, false⟩ (by decide)).2.2.1 rfl,
   (handle_exception_correct (fun _ => none) (2 ^ 13) 0 {}).1 (by decide)⟩

/-! ## C4: the VM-exit dispatcher -/

theorem handle_vmexit_unrecognized (env : HostEnv) (s : DispatchState)
    (h : VmxBasicExitReason.from_u32 ((s.vmcs EXIT_REASON % 2 ^ 64) % 2 ^ 32) =
      none) :
    handle_vmexit env s = .ok (some .UnknownVMExitReason, s) := by
  unfold handle_vmexit
  simp only []
  rw [h]

theorem from_u32_cpuid (v : Nat) (h : v &&& 0xFFFF = 10) :
    VmxBasicExitReason.from_u32 v = some .Cpuid := by
  unfold VmxBasicExitReason.from_u32
  rw [h]
  rfl

theorem from_u32_rdmsr (v : Nat) (h : v &&& 0xFFFF = 31) :
    VmxBasicExitReason.from_u32 v = some .Rdmsr := by
  unfold VmxBasicExitReason.from_u32
  rw [h]
  rfl

theorem from_u32_wrmsr (v : Nat) (h : v &&& 0xFFFF = 32) :
    VmxBasicExitReason.from_u32 v = some .Wrmsr := by
  unfold VmxBasicExitReason.from_u32
  rw [h]
  rfl

theorem instr_error_classified (v : Nat) (h : v ≤ 28) :
    VmInstructionError.from_u32 v = some v := by
  unfold VmInstructionError.from_u32
  rw [if_pos h]

theorem handle_vmexit_cpuid (env : HostEnv) (s : DispatchState)
    (herr : (s.vmcs VM_INSTRUCTION_ERROR % 2 ^ 64) % 2 ^ 32 ≤ 28)
    (h10 : ((s.vmcs EXIT_REASON % 2 ^ 64) % 2 ^ 32) &&& 0xFFFF = 10) :
    handle_vmexit env s = .ok (none,
      { s with regs := handle_cpuid env s.regs,
               vmcs := vmwrite_state s.vmcs GUEST_RIP
                 ((s.vmcs GUEST_RIP % 2 ^ 64 +
                   s.vmcs VMEXIT_INSTRUCTION_LEN % 2 ^ 64) % 2 ^ 64) }) := by
  unfold handle_vmexit
  simp only []
  rw [from_u32_cpuid _ h10, instr_error_classified _ herr]

theorem handle_vmexit_rdmsr (env : HostEnv) (s : DispatchState)
    (herr : (s.vmcs VM_INSTRUCTION_ERROR % 2 ^ 64) % 2 ^ 32 ≤ 28)
    (h31 : ((s.vmcs EXIT_REASON % 2 ^ 64) % 2 ^ 32) &&& 0xFFFF = 31) :
    handle_vmexit env s = .ok (none,
      { s with regs := (handle_msr_access env s.regs .Read).1,
               msr_writes := s.msr_writes ++
                 (handle_msr_access env s.regs .Read).2,
               vmcs := vmwrite_state s.vmcs GUEST_RIP
                 ((s.vmcs GUEST_RIP % 2 ^ 64 +
                   s.vmcs VMEXIT_INSTRUCTION_LEN % 2 ^ 64) % 2 ^ 64) }) := by
  unfold handle_vmexit
  simp only []
  rw [from_u32_rdmsr _ h31, instr_error_classified _ herr]

theorem handle_vmexit_wrmsr (env : HostEnv) (s : DispatchState)
    (herr : (s.vmcs VM_INSTRUCTION_ERROR % 2 ^ 64) % 2 ^ 32 ≤ 28)
    (h32 : ((s.vmcs EXIT_REASON % 2 ^ 64) % 2 ^ 32) &&& 0xFFFF = 32) :
    handle_vmexit env s = .ok (none,
      { s with regs := (handle_msr_access env s.regs .Write).1,
               msr_writes := s.msr_writes ++
                 (handle_msr_access env s.regs .Write).2,
               vmcs := vmwrite_state s.vmcs GUEST_RIP
                 ((s.vmcs GUEST_RIP % 2 ^ 64 +
                   s.vmcs VMEXIT_INSTRUCTION_LEN % 2 ^ 64) % 2 ^ 64) }) := by
  unfold handle_vmexit
  simp only []
  rw [from_u32_wrmsr _ h32, instr_error_classified _ herr]

/-- C4: vmexit_handler returns ExitHypervisor on a null register pointer;
an unrecognized EXIT_REASON surfaces UnknownVmExitReason as
ExitHypervisor; and for the handled reasons CPUID (10), RDMSR (31) and
WRMSR (32) it returns Continue with the VMCS guest RIP advanced by
exactly VMEXIT_INSTRUCTION_LEN (modulo 2 ^ 64, the u64 addition of the
source) and every other VMCS field untouched. The VM-instruction-error
read is assumed classified (at most 28, as after any ordinary VM-exit;
vmerror.rs is modelled from the spec). -/
theorem vmexit_handler_correct (env : HostEnv) (vmcs : Nat → Nat)
    (regs : GuestRegisters) :
    vmexit_handler env none vmcs = .ok (.ExitHypervisor, none) ∧
    (VmxBasicExitReason.from_u32 ((vmcs EXIT_REASON % 2 ^ 64) % 2 ^ 32) =
        none →
      vmexit_handler env (some regs) vmcs =
        .ok (.ExitHypervisor, some ⟨regs, vmcs, []⟩)) ∧
    ((vmcs VM_INSTRUCTION_ERROR % 2 ^ 64) % 2 ^ 32 ≤ 28 →
      (((vmcs EXIT_REASON % 2 ^ 64) % 2 ^ 32) &&& 0xFFFF = 10 →
        vmexit_handler env (some regs) vmcs =
          .ok (.Continue, some ⟨handle_cpuid env regs,
            vmwrite_state vmcs GUEST_RIP
              ((vmcs GUEST_RIP % 2 ^ 64 +
                vmcs VMEXIT_INSTRUCTION_LEN % 2 ^ 64) % 2 ^ 64), []⟩)) ∧
      (((vmcs EXIT_REASON % 2 ^ 64) % 2 ^ 32) &&& 0xFFFF = 31 →
        vmexit_handler env (some regs) vmcs =
          .ok (.Continue, some ⟨(handle_msr_access env regs .Read).1,
            vmwrite_state vmcs GUEST_RIP
              ((vmcs GUEST_RIP % 2 ^ 64 +
                vmcs VMEXIT_INSTRUCTION_LEN % 2 ^ 64) % 2 ^ 64),
            (handle_msr_access env regs .Read).2⟩)) ∧
      (((vmcs EXIT_REASON % 2 ^ 64) % 2 ^ 32) &&& 0xFFFF = 32 →
        vmexit_handler env (some regs) vmcs =
          .ok (.Continue, some ⟨(handle_msr_access env regs .Write).1,
            vmwrite_state vmcs GUEST_RIP
              ((vmcs GUEST_RIP % 2 ^ 64 +
                vmcs VMEXIT_INSTRUCTION_LEN % 2 ^ 64) % 2 ^ 64),
            (handle_msr_access env regs .Write).2⟩))) ∧
    (∀ v, vmwrite_state vmcs GUEST_RIP v GUEST_RIP = v) ∧
    (∀ v f, f ≠ GUEST_RIP → vmwrite_state vmcs GUEST_RIP v f = vmcs f) := by
  refine ⟨rfl, ?_, ?_, ?_, ?_⟩
  · intro h
    unfold vmexit_handler
    simp only []
    rw [handle_vmexit_unrecognized env ⟨regs, vmcs, []⟩ h]
  · intro herr
    refine ⟨?_, ?_, ?_⟩
    · intro h10
      unfold vmexit_handler
      simp only []
      rw [handle_vmexit_cpuid env ⟨regs, vmcs, []⟩ herr h10]
    · intro h31
      unfold vmexit_handler
      simp only []
      rw [handle_vmexit_rdmsr env ⟨regs, vmcs, []⟩ herr h31]
      rfl
    · intro h32
      unfold vmexit_handler
      simp only []
      rw [handle_vmexit_wrmsr env ⟨regs, vmcs, []⟩ herr h32]
      rfl
  · intro v
    unfold vmwrite_state
    rw [if_pos rfl]
  · intro v f hf
    unfold vmwrite_state
    rw [if_neg hf]

/-- A concrete VMCS map: exit reason 10 (CPUID), instruction error 0,
instruction length 2, guest RIP 0x1000. -/
def vmcsCpuid : Nat → Nat :=
  fun f =>
    if f = EXIT_REASON then 10
    else if f = VMEXIT_INSTRUCTION_LEN then 2
    else if f = GUEST_RIP then 0x1000
    else 0

def hostEnvZero : HostEnv := ⟨fun _ _ => (0, 0, 0, 0), fun _ => 0⟩

/-- Witness for C4: the CPUID exit at vmcsCpuid advances guest RIP from
0x1000 to 0x1002 and returns Continue; an unrecognized reason 0xFFFF
returns ExitHypervisor. -/
theorem vmexit_handler_correct_witness :
    vmexit_handler hostEnvZero (some {}) vmcsCpuid =
      .ok (.Continue, some ⟨handle_cpuid hostEnvZero {},
        vmwrite_state vmcsCpuid GUEST_RIP
          ((vmcsCpuid GUEST_RIP % 2 ^ 64 +
            vmcsCpuid VMEXIT_INSTRUCTION_LEN % 2 ^ 64) % 2 ^ 64), []⟩) ∧
    vmexit_handler hostEnvZero none vmcsCpuid = .ok (.ExitHypervisor, none) ∧
    vmexit_handler hostEnvZero (some {}) (fun _ => 0xFFFF) =
      .ok (.ExitHypervisor, some ⟨{}, fun _ => 0xFFFF, []⟩) :=
  ⟨((vmexit_handler_correct hostEnvZero vmcsCpuid {}).2.2.1 (by decide)).1
      (by decide),
   (vmexit_handler_correct hostEnvZero vmcsCpuid {}).1,
   (vmexit_handler_correct hostEnvZero (fun _ => 0xFFFF) {}).2.1 (by decide)⟩

/-! ## C9: phase lemmas for the run trace -/

theorem probe_free_append (a b : List VmxAction) :
    probe_free (a ++ b) = (probe_free a && probe_free b) :=
  List.all_append

theorem set_lock_bit_error (v : Nat) (e : HypervisorError)
    (h : set_lock_bit v = .error e) : e = .VMXBIOSLock := by
  unfold set_lock_bit at h
  simp only [] at h
  split at h
  · exact Except.noConfusion h
  · split at h
    · exact (Except.error.inj h).symm
    · exact Except.noConfusion h

theorem phase_shape_set_lock_bit (env : RunEnv) (s : RunState) :
    phase_shape s (set_lock_bit_phase env s) := by
  unfold phase_shape set_lock_bit_phase
  simp only []
  rcases h : set_lock_bit (env.rdmsr IA32_FEATURE_CONTROL % 2 ^ 64) with e | o
  · constructor
    · exact ⟨[.readmsr IA32_FEATURE_CONTROL], rfl, rfl⟩
    · intro f hf
      obtain rfl := (Except.error.inj hf).symm
      obtain rfl := set_lock_bit_error _ _ h
      show benign (RunStatus.err HypervisorError.VMXBIOSLock)
      decide
  · rcases o with _ | w
    · constructor
      · exact ⟨[.readmsr IA32_FEATURE_CONTROL], rfl, rfl⟩
      · intro f hf
        exact Except.noConfusion hf
    · constructor
      · exact ⟨[.readmsr IA32_FEATURE_CONTROL,
          .writemsr IA32_FEATURE_CONTROL w], rfl,
          by simp [stepState, emit, List.append_assoc]⟩
      · intro f hf
        exact Except.noConfusion hf

theorem trace_set_cr0_bits_phase (env : RunEnv) (s : RunState) :
    (set_cr0_bits_phase env s).trace = s.trace ++
      [.readmsr IA32_VMX_CR0_FIXED0, .readmsr IA32_VMX_CR0_FIXED1,
       .writeCr0 (set_cr0_bits s.cr0 (env.rdmsr IA32_VMX_CR0_FIXED0 % 2 ^ 64)
         (env.rdmsr IA32_VMX_CR0_FIXED1 % 2 ^ 64))] := rfl

theorem trace_set_cr4_bits_phase (env : RunEnv) (s : RunState) :
    (set_cr4_bits_phase env s).trace = s.trace ++
      [.readmsr IA32_VMX_CR4_FIXED0, .readmsr IA32_VMX_CR4_FIXED1,
       .writeCr4 (set_cr4_bits s.cr4 (env.rdmsr IA32_VMX_CR4_FIXED0 % 2 ^ 64)
         (env.rdmsr IA32_VMX_CR4_FIXED1 % 2 ^ 64))] := rfl

theorem phase_shape_init_vmxon_region (env : RunEnv) (s : RunState) :
    phase_shape s (init_vmxon_region env s) := by
  unfold phase_shape init_vmxon_region
  simp only []
  by_cases hpa : env.phys env.vmxon_va = 0
  · rw [if_pos hpa]
    constructor
    · exact ⟨[], rfl, (List.append_nil s.trace).symm⟩
    · intro f hf
      obtain rfl := (Except.error.inj hf).symm
      show benign (RunStatus.err HypervisorError.VirtualToPhysicalAddressFailed)
      decide
  · rw [if_neg hpa]
    rcases hok : env.vmxon_ok with _ | _
    · rw [if_neg Bool.false_ne_true]
      constructor
      · exact ⟨[.readmsr IA32_VMX_BASIC, .vmxon (env.phys env.vmxon_va)],
          rfl, by simp [stepState, emit, List.append_assoc]⟩
      · intro f hf
        obtain rfl := (Except.error.inj hf).symm
        show benign (RunStatus.panicked PanicKind.vmxInstructionFailed)
        decide
    · rw [if_pos rfl]
      constructor
      · exact ⟨[.readmsr IA32_VMX_BASIC, .vmxon (env.phys env.vmxon_va)],
          rfl, by simp [stepState, emit, List.append_assoc]⟩
      · intro f hf
        exact Except.noConfusion hf

theorem phase_shape_init_vmcs_region (env : RunEnv) (s : RunState) :
    phase_shape s (init_vmcs_region env s) := by
  unfold phase_shape init_vmcs_region
  simp only []
  by_cases hpa : env.phys env.vmcs_va = 0
  · rw [if_pos hpa]
    constructor
    · exact ⟨[], rfl, (List.append_nil s.trace).symm⟩
    · intro f hf
      obtain rfl := (Except.error.inj hf).symm
      show benign (RunStatus.err HypervisorError.VirtualToPhysicalAddressFailed)
      decide
  · rw [if_neg hpa]
    rcases hc : env.vmclear_ok with _ | _
    · rw [if_neg Bool.false_ne_true]
      constructor
      · exact ⟨[.readmsr IA32_VMX_BASIC, .vmclear (env.phys env.vmcs_va)],
          rfl, by simp [stepState, emit, List.append_assoc]⟩
      · intro f hf
        obtain rfl := (Except.error.inj hf).symm
        show benign (RunStatus.panicked PanicKind.vmxInstructionFailed)
        decide
    · rw [if_pos rfl]
      rcases hp : env.vmptrld_ok with _ | _
      · rw [if_neg Bool.false_ne_true]
        constructor
        · exact ⟨[.readmsr IA32_VMX_BASIC, .vmclear (env.phys env.vmcs_va),
            .vmptrld (env.phys env.vmcs_va)],
            rfl, by simp [stepState, emit, List.append_assoc]⟩
        · intro f hf
          obtain rfl := (Except.error.inj hf).symm
          show benign (RunStatus.panicked PanicKind.vmxInstructionFailed)
          decide
      · rw [if_pos rfl]
        constructor
        · exact ⟨[.readmsr IA32_VMX_BASIC, .vmclear (env.phys env.vmcs_va),
            .vmptrld (env.phys env.vmcs_va)],
            rfl, by simp [stepState, emit, List.append_assoc]⟩
        · intro f hf
          exact Except.noConfusion hf

theorem phase_shape_enable (env : RunEnv) (s : RunState) :
    phase_shape s (enable_vmx_operation env s) := by
  unfold enable_vmx_operation
  unfold phase_shape
  simp only [bind, Except.bind]
  rcases h2 : set_lock_bit_phase env
      { emit s (.writeCr4 (s.read_cr4 ||| (1 <<< 13))) with
        cr4 := s.read_cr4 ||| (1 <<< 13) } with f2 | s2
  · have hsub := phase_shape_set_lock_bit env
      { emit s (.writeCr4 (s.read_cr4 ||| (1 <<< 13))) with
        cr4 := s.read_cr4 ||| (1 <<< 13) }
    rw [h2] at hsub
    obtain ⟨⟨l2, hl2, ht2⟩, hb2⟩ := hsub
    constructor
    · refine ⟨.writeCr4 (s.read_cr4 ||| (1 <<< 13)) :: l2, ?_, ?_⟩
      · simpa [probe_free] using hl2
      · unfold stepState at ht2 ⊢
        rw [ht2]
        simp [emit, List.append_assoc]
    · intro f hf
      obtain rfl := (Except.error.inj hf).symm
      exact hb2 _ rfl
  · have hsub := phase_shape_set_lock_bit env
      { emit s (.writeCr4 (s.read_cr4 ||| (1 <<< 13))) with
        cr4 := s.read_cr4 ||| (1 <<< 13) }
    rw [h2] at hsub
    obtain ⟨⟨l2, hl2, ht2⟩, _⟩ := hsub
    have hsub4 := phase_shape_init_vmxon_region env
      (set_cr4_bits_phase env (set_cr0_bits_phase env s2))
    obtain ⟨⟨l5, hl5, ht5⟩, hb5⟩ := hsub4
    constructor
    · refine ⟨.writeCr4 (s.read_cr4 ||| (1 <<< 13)) :: (l2 ++
        ([.readmsr IA32_VMX_CR0_FIXED0, .readmsr IA32_VMX_CR0_FIXED1,
          .writeCr0 (set_cr0_bits s2.cr0
            (env.rdmsr IA32_VMX_CR0_FIXED0 % 2 ^ 64)
            (env.rdmsr IA32_VMX_CR0_FIXED1 % 2 ^ 64)),
          .readmsr IA32_VMX_CR4_FIXED0, .readmsr IA32_VMX_CR4_FIXED1,
          .writeCr4 (set_cr4_bits (set_cr0_bits_phase env s2).cr4
            (env.rdmsr IA32_VMX_CR4_FIXED0 % 2 ^ 64)
            (env.rdmsr IA32_VMX_CR4_FIXED1 % 2 ^ 64))] ++ l5)), ?_, ?_⟩
      · simp only [probe_free, List.all_cons, List.all_append] at hl2 hl5 ⊢
        simp [hl2, hl5]
      · unfold stepState at ht2 ht5 ⊢
        rw [ht5, trace_set_cr4_bits_phase, trace_set_cr0_bits_phase, ht2]
        simp [emit, List.append_assoc]
    · intro f hf
      exact hb5 f hf

theorem phase_shape_bind (s : RunState) (r : Except RunFail RunState)
    (g : RunState → Except RunFail RunState)
    (hr : phase_shape s r)
    (hg : ∀ s1, phase_shape s1 (g s1)) :
    phase_shape s (r >>= g) := by
  rcases r with f | s1
  · obtain ⟨⟨l, hl, ht⟩, hb⟩ := hr
    refine ⟨⟨l, hl, ht⟩, ?_⟩
    intro f2 hf2
    exact hb f2 hf2
  · obtain ⟨⟨l1, hl1, ht1⟩, _⟩ := hr
    obtain ⟨⟨l2, hl2, ht2⟩, hb2⟩ := hg s1
    unfold stepState at ht1
    refine ⟨⟨l1 ++ l2, ?_, ?_⟩, ?_⟩
    · rw [probe_free_append, hl1, hl2]
      rfl
    · show (stepState (g s1)).trace = s.trace ++ (l1 ++ l2)
      rw [ht2, ht1, List.append_assoc]
    · intro f hf
      exact hb2 f hf

theorem phase_shape_init_guest (env : RunEnv) (s : RunState) :
    phase_shape s (init_guest_register_state env s) := by
  unfold phase_shape init_guest_register_state
  simp only []
  rcases h : unpack8 env.gdt (env.context.seg_cs % 2 ^ 16)
      (env.context.seg_ss % 2 ^ 16) (env.context.seg_ds % 2 ^ 16)
      (env.context.seg_es % 2 ^ 16) (env.context.seg_fs % 2 ^ 16)
      (env.context.seg_gs % 2 ^ 16) (env.ldtr % 2 ^ 16) (env.tr % 2 ^ 16)
      with _ | u
  · constructor
    · exact ⟨[], rfl, (List.append_nil s.trace).symm⟩
    · intro f hf
      obtain rfl := (Except.error.inj hf).symm
      show benign (RunStatus.panicked PanicKind.unpackOutOfBounds)
      decide
  · obtain ⟨ucs, uss, uds, ues, ufs, ugs, uldtr, utr⟩ := u
    constructor
    · refine ⟨_, ?_, rfl⟩
      rfl
    · intro f hf
      exact Except.noConfusion hf

theorem phase_shape_init_host (env : RunEnv) (s : RunState) :
    phase_shape s (init_host_register_state env s) := by
  unfold phase_shape init_host_register_state
  simp only []
  by_cases hl : (env.gdt_u64.length + 1) * 8 - 1 < 2 ^ 16
  · rw [if_pos hl]
    constructor
    · refine ⟨_, ?_, rfl⟩
      rfl
    · intro f hf
      exact Except.noConfusion hf
  · rw [if_neg hl]
    constructor
    · exact ⟨[], rfl, (List.append_nil s.trace).symm⟩
    · intro f hf
      obtain rfl := (Except.error.inj hf).symm
      show benign (RunStatus.panicked PanicKind.hostGdtLimitOverflow)
      decide

theorem phase_shape_adjust (env : RunEnv) (control : VmxControl)
    (field req : Nat) (s : RunState) :
    phase_shape s (adjust_phase env control field req s) := by
  unfold phase_shape adjust_phase
  simp only []
  rcases h : adjust_vmx_controls ⟨env.rdmsr⟩ control req with _ | v
  · constructor
    · refine ⟨_, ?_, rfl⟩
      rfl
    · intro f hf
      obtain rfl := (Except.error.inj hf).symm
      show benign (RunStatus.panicked PanicKind.adjustOverflow)
      decide
  · constructor
    · exact ⟨[.readmsr IA32_VMX_BASIC,
        .readmsr (vmx_cap_msr ⟨env.rdmsr⟩ control), .vmwriteA field v],
        rfl, by simp [stepState, emit, emits, List.append_assoc]⟩
    · intro f hf
      exact Except.noConfusion hf

theorem phase_shape_controls (env : RunEnv) (s : RunState) :
    phase_shape s (init_vmcs_control_values env s) := by
  have hstep : ∀ s5 : RunState, phase_shape s5
      (Except.ok (emits s5 [.vmwriteA CR0_READ_SHADOW s5.read_cr0,
        .vmwriteA CR4_READ_SHADOW s5.read_cr4]) : Except RunFail RunState) := by
    intro s5
    constructor
    · refine ⟨_, ?_, rfl⟩
      rfl
    · intro f hf
      exact Except.noConfusion hf
  unfold init_vmcs_control_values
  exact phase_shape_bind _ _ _ (phase_shape_adjust env _ _ _ s)
    (fun s1 => phase_shape_bind _ _ _ (phase_shape_adjust env _ _ _ s1)
      (fun s2 => phase_shape_bind _ _ _ (phase_shape_adjust env _ _ _ s2)
        (fun s3 => phase_shape_bind _ _ _ (phase_shape_adjust env _ _ _ s3)
          (fun s4 => phase_shape_bind _ _ _ (phase_shape_adjust env _ _ _ s4)
            (fun s5 => hstep s5)))))

theorem phase_shape_launch (env : RunEnv) (s : RunState) :
    phase_shape s (launch_phase env s) := by
  unfold phase_shape launch_phase
  simp only []
  by_cases h1 : (env.launch_flags % 2 ^ 64) &&& 0x40 ≠ 0
  · rw [if_pos h1]
    constructor
    · exact ⟨[.launch, .vmreadA VM_INSTRUCTION_ERROR], rfl,
        by simp [stepState, emit, List.append_assoc]⟩
    · intro f hf
      obtain rfl := (Except.error.inj hf).symm
      show benign (RunStatus.panicked PanicKind.vmFailed)
      decide
  · rw [if_neg h1]
    by_cases h2 : (env.launch_flags % 2 ^ 64) &&& 0x1 ≠ 0
    · rw [if_pos h2]
      constructor
      · refine ⟨_, ?_, rfl⟩
        rfl
      · intro f hf
        obtain rfl := (Except.error.inj hf).symm
        show benign (RunStatus.panicked PanicKind.vmFailed)
        decide
    · rw [if_neg h2]
      constructor
      · exact ⟨[.launch], rfl, rfl⟩
      · intro f hf
        exact Except.noConfusion hf

theorem phase_shape_post (env : RunEnv) (s6 : RunState) :
    phase_shape s6 (pure (post_exit_reads env s6) : Except RunFail RunState) := by
  constructor
  · refine ⟨[.vmreadA GUEST_RIP, .vmreadA GUEST_RSP, .vmreadA GUEST_RFLAGS,
      .vmreadA EXIT_REASON], rfl, ?_⟩
    show (post_exit_reads env s6).trace = _
    rfl
  · intro f hf
    exact Except.noConfusion hf

/-- C9 (amended): for every environment, run() performs no capability
probe (its action trace contains no probe action) and never stops with
CpuUnsupported or VmxUnsupported: the probe functions exist as separate
associated functions but run() does not invoke them, and it proceeds to
enable VMX regardless of CPU support. -/
theorem run_no_probe (env : RunEnv) :
    probe_free (Vmx.run env).state.trace = true ∧
    benign (Vmx.run env).status := by
  have hchain := phase_shape_bind _ _ _
    (phase_shape_enable env
      { trace := [], cr0 := env.cr0, cr4 := env.cr4, registers := {},
        launched := false })
    (fun s1 => phase_shape_bind _ _ _ (phase_shape_init_vmcs_region env s1)
      (fun s2 => phase_shape_bind _ _ _ (phase_shape_init_guest env s2)
        (fun s3 => phase_shape_bind _ _ _ (phase_shape_init_host env s3)
          (fun s4 => phase_shape_bind _ _ _ (phase_shape_controls env s4)
            (fun s5 => phase_shape_bind _ _ _ (phase_shape_launch env s5)
              (fun s6 => phase_shape_post env s6))))))
  obtain ⟨⟨l, hl, ht⟩, hb⟩ := hchain
  unfold Vmx.run
  simp only []
  split
  · rename_i s' heq
    rw [heq] at ht
    unfold stepState at ht
    simp only [] at ht
    constructor
    · show probe_free s'.trace = true
      rw [ht]
      simpa using hl
    · show benign RunStatus.ok
      decide
  · rename_i f heq
    rw [heq] at ht
    unfold stepState at ht
    constructor
    · show probe_free f.state.trace = true
      rw [ht]
      simpa using hl
    · exact hb f heq

/-- C9 counterexample: on the concrete non-Intel, non-VMX environment
envC9, run() returns Ok (neither CpuUnsupported nor VmxUnsupported), its
trace contains the VMXON instruction, no probe was performed, and
CR4.VMXE (bit 13) is set at the end, refuting every part of the claim's
unsupported-CPU behaviour. -/
theorem run_claim_counterexample :
    envC9.vendor_is_intel = false ∧
    envC9.has_vmx = false ∧
    (Vmx.run envC9).status = .ok ∧
    VmxAction.vmxon 0x5000 ∈ (Vmx.run envC9).state.trace ∧
    probe_free (Vmx.run envC9).state.trace = true ∧
    (Vmx.run envC9).state.cr4.testBit 13 = true := by
  refine ⟨rfl, rfl, ?_, ?_, ?_, ?_⟩ <;> decide

end ShittyVisor
